import Mathlib

/-!
Verification of the AstrBot style-learning plugin (`plugin.py`) against its
natural-language specification.

The embedding models Python values shallowly:
- a Python `dict` carrying message fields becomes an association list over a
  sum type `PyVal` of the value shapes that actually flow through the code
  (strings, ints, booleans, `None`);
- fallible Python code (attribute/key errors that would propagate) becomes
  `Except PyError`;
- Python `float` values become `ℚ`; where a claim is sensitive to IEEE-754
  rounding (the emotional ratios), the correctly rounded binary64 value is
  modelled explicitly (`roundDouble`, `fpDiv`, `fpAdd`), and elsewhere the
  exact rational is used where it provably coincides with the float result
  for the property at stake (`str()`/`float()` round-tripping is exact in
  Python, so text encoding of feature values is the identity on the value);
- `time.time()` becomes an explicit `now : Int` parameter (the code only
  stores wall-clock values and compares their differences against the
  3600-second window, so integer seconds model the float clock faithfully);
- the MD5 content digest used only as a cache key is modelled as the identity
  on the content string (collision-free digest model).
-/

/-- A Python runtime value, restricted to the shapes that reach the plugin's
message pipeline: strings, integers, booleans and `None`. -/
inductive PyVal where
  | vStr (s : String)
  | vInt (n : Int)
  | vBool (b : Bool)
  | vNone
deriving DecidableEq, Repr

/-- Python exception kinds that the unguarded parts of the plugin can raise. -/
inductive PyError where
  | keyError
  | attributeError
  | valueError
deriving DecidableEq, Repr

/-- Python `str(v)` on the modelled value shapes. -/
def pyStr (v : PyVal) : String :=
  match v with
  | .vStr s => s
  | .vInt n => toString n
  | .vBool true => "True"
  | .vBool false => "False"
  | .vNone => "None"

/-- A Python dict with string keys, as an insertion-ordered association list. -/
abbrev PyDict := List (String × PyVal)

/-- Python `d[k]` as an option (callers decide whether a miss is a KeyError). -/
def pyLookup {α : Type} (l : List (String × α)) (k : String) : Option α :=
  (l.find? (fun p => p.1 == k)).map (fun p => p.2)

/-- Python `d.get(k, dflt)`. -/
def pyLookupD {α : Type} (l : List (String × α)) (k : String) (dflt : α) : α :=
  (pyLookup l k).getD dflt

/-- Python `d[k] = v`: replace in place when the key exists, else append
(dict insertion-order semantics). -/
def pyDictSet {α : Type} (l : List (String × α)) (k : String) (v : α) :
    List (String × α) :=
  if l.any (fun p => p.1 == k) then
    l.map (fun p => if p.1 == k then (k, v) else p)
  else l ++ [(k, v)]

/-- Strip leading and trailing whitespace from a character list. -/
def pyStripList (l : List Char) : List Char :=
  (((l.dropWhile Char.isWhitespace).reverse).dropWhile Char.isWhitespace).reverse

/-- Python `s.strip()` (the source only ever strips ASCII whitespace). -/
def pyStrip (s : String) : String := ⟨pyStripList s.toList⟩

/-- Python `s.startswith(p)`. -/
def pyStartsWith (s p : String) : Bool := p.toList.isPrefixOf s.toList

/-- Python `s.endswith(p)`. -/
def pyEndsWith (s p : String) : Bool := p.toList.isSuffixOf s.toList

/-- Python `sub in s`: substring containment. -/
def pyContains (s sub : String) : Bool :=
  s.toList.tails.any (fun t => sub.toList.isPrefixOf t)

/-- One alternative of the regex `(http|https)://\S+` matching at the head of
the remaining character list (alternation tries `http` first and backtracks to
`https`, which reduces to either literal prefix followed by one
non-whitespace character). -/
def urlAt (l : List Char) : Bool :=
  ("http://".toList.isPrefixOf l &&
    (match l.drop 7 with | c :: _ => !c.isWhitespace | [] => false))
  || ("https://".toList.isPrefixOf l &&
    (match l.drop 8 with | c :: _ => !c.isWhitespace | [] => false))

/-- Python `re.search(r'(http|https)://\S+', content)` as a Boolean. -/
def containsUrl (s : String) : Bool := s.toList.tails.any urlAt

/-- The `message_filter` section of the plugin configuration
(`_load_config`, plugin.py lines 51-58). -/
structure MessageFilterConfig where
  commandPrefixes : List String
  minMessageLength : Nat
  maxDuplicateCount : Nat
  sensitiveWords : List String
  whitelistUsers : List String
  blacklistUsers : List String
deriving DecidableEq, Repr

/-- The default `message_filter` configuration from `_load_config`. -/
def defaultFilterConfig : MessageFilterConfig :=
  { commandPrefixes := ["!", "！", "/"]
    minMessageLength := 2
    maxDuplicateCount := 3
    sensitiveWords := []
    whitelistUsers := []
    blacklistUsers := [] }

/-- Python `user_id in <list of config strings>`: list membership by equality;
a non-string value never equals a string, so it is simply absent. -/
def pyMemStrList (v : PyVal) (l : List String) : Bool :=
  match v with
  | .vStr s => l.contains s
  | _ => false

/-- `_is_valid_message_format` (plugin.py lines 212-218): all five required
fields must be present. -/
def is_valid_message_format (message : PyDict) : Bool :=
  ["user_id", "user_name", "content", "send_time", "session_id"].all
    (fun f => (pyLookup message f).isSome)

/-- `_extract_message_metadata` (plugin.py lines 220-230). Required fields are
read with direct indexing (callers have validated their presence; a miss is
modelled by the `None` default), optional fields with `.get` defaults. -/
def extract_message_metadata (message : PyDict) : PyDict :=
  [("user_id", pyLookupD message "user_id" PyVal.vNone),
   ("user_name", pyLookupD message "user_name" PyVal.vNone),
   ("content", pyLookupD message "content" PyVal.vNone),
   ("send_time", pyLookupD message "send_time" PyVal.vNone),
   ("session_id", pyLookupD message "session_id" PyVal.vNone),
   ("is_group", pyLookupD message "is_group" (PyVal.vBool false)),
   ("reply_to", pyLookupD message "reply_to" PyVal.vNone)]

/-- `_filter_message` (plugin.py lines 232-263). The first statement
`message["content"].strip()` raises KeyError on a missing key and
AttributeError on a non-string value; all later checks are total. -/
def filter_message (cfg : MessageFilterConfig) (message : PyDict) :
    Except PyError Bool :=
  match pyLookup message "content" with
  | none => .error PyError.keyError
  | some (PyVal.vStr raw) =>
    let content := pyStrip raw
    let user_id := pyLookupD message "user_id" PyVal.vNone
    if cfg.commandPrefixes.any (fun p => pyStartsWith content p) then .ok false
    else if content.toList.length < cfg.minMessageLength then .ok false
    else if pyMemStrList user_id cfg.blacklistUsers then .ok false
    else if !cfg.whitelistUsers.isEmpty &&
            !pyMemStrList user_id cfg.whitelistUsers then .ok false
    else if containsUrl content then .ok false
    else if cfg.sensitiveWords.any (fun w => pyContains content w) then .ok false
    else .ok true
  | some _ => .error PyError.attributeError

/-- One dedup-cache entry (`plugin.py` lines 288-291). -/
structure CacheEntry where
  timestamp : Int
  count : Nat
deriving DecidableEq, Repr

/-- The MD5 hex digest used only to build cache keys, modelled as the identity
on the content (a collision-free digest). -/
def md5hex (s : String) : String := s

/-- `_is_duplicate_message` (plugin.py lines 265-293): purge entries older
than one hour, then look up `f"{session_id}:{hash}"`; on hit increment the
counter and reject once it exceeds `max_duplicate_count`; on miss insert a
fresh entry with count 1. Returns the verdict and the mutated cache. -/
def is_duplicate_message (cfg : MessageFilterConfig) (now : Int)
    (cache : List (String × CacheEntry)) (message : PyDict) :
    Except PyError (Bool × List (String × CacheEntry)) :=
  match pyLookup message "content" with
  | none => .error PyError.keyError
  | some (PyVal.vStr content) =>
    match pyLookup message "session_id" with
    | none => .error PyError.keyError
    | some session_id =>
      let cache := cache.filter (fun kv => now - kv.2.timestamp < 3600)
      let key := pyStr session_id ++ ":" ++ md5hex content
      match pyLookup cache key with
      | some e =>
        let e' : CacheEntry := { e with count := e.count + 1 }
        let cache := pyDictSet cache key e'
        if cfg.maxDuplicateCount < e'.count then .ok (true, cache)
        else .ok (false, cache)
      | none => .ok (false, pyDictSet cache key { timestamp := now, count := 1 })
  | some _ => .error PyError.attributeError

/-- The plugin's mutable state relevant to the ingestion pipeline: the dedup
cache (`message_cache`), the `messages` table (rows in insertion order, each
the 7-field tuple of `_save_message`; `is_valid` defaults to TRUE), the
`statistics` table (`metric_name → metric_value` text), and the
`learning_tasks` marker registry keys. -/
structure PState where
  cache : List (String × CacheEntry)
  messages : List PyDict
  stats : List (String × String)
  markers : List PyVal
deriving DecidableEq, Repr

/-- The plugin state right after `_init_database` on a fresh data directory. -/
def initState : PState := { cache := [], messages := [], stats := [], markers := [] }

/-- `_update_statistic` (plugin.py lines 794-812): `INSERT OR REPLACE` keyed by
`metric_name`, storing `str(metric_value)`. -/
def update_statistic (stats : List (String × String)) (metric_name : String)
    (metric_value : PyVal) : List (String × String) :=
  pyDictSet stats metric_name (pyStr metric_value)

/-- `_save_message` (plugin.py lines 295-322): append the row, then upsert the
`total_messages` and `valid_messages` statistics with the value `1`. -/
def save_message (st : PState) (message : PyDict) : PState :=
  let st := { st with messages := st.messages ++ [message] }
  let st := { st with stats := update_statistic st.stats "total_messages" (PyVal.vInt 1) }
  { st with stats := update_statistic st.stats "valid_messages" (PyVal.vInt 1) }

/-- `_get_valid_message_count` (plugin.py lines 509-526): count of stored rows
for the user (every stored row has `is_valid = TRUE`). -/
def get_valid_message_count (st : PState) (user_id : PyVal) : Nat :=
  (st.messages.filter (fun row => pyLookupD row "user_id" PyVal.vNone == user_id)).length

/-- `_trigger_learning` (plugin.py lines 486-507): under the task lock, if no
task marker exists for the session and the user's valid-message count reaches
`batch_size`, start a background task and register the session's marker.
Only the marker registry changes synchronously. -/
def trigger_learning (batch_size : Nat) (st : PState) (message : PyDict) : PState :=
  let user_id := pyLookupD message "user_id" PyVal.vNone
  let session_id := pyLookupD message "session_id" PyVal.vNone
  if st.markers.contains session_id then st
  else if batch_size ≤ get_valid_message_count st user_id then
    { st with markers := session_id :: st.markers }
  else st

/-- `handle_message` (plugin.py lines 172-193): validate, extract, filter,
dedup, save, trigger. An exception escaping any unguarded step propagates to
the caller (`.error`). -/
def handle_message (cfg : MessageFilterConfig) (batch_size : Nat) (now : Int)
    (st : PState) (message : PyDict) : Except PyError PState :=
  if is_valid_message_format message = false then .ok st
  else
    let md := extract_message_metadata message
    match filter_message cfg md with
    | .error e => .error e
    | .ok false => .ok st
    | .ok true =>
      match is_duplicate_message cfg now st.cache md with
      | .error e => .error e
      | .ok (true, cache') => .ok { st with cache := cache' }
      | .ok (false, cache') =>
        let st' := save_message { st with cache := cache' } md
        .ok (trigger_learning batch_size st' md)

/-- A row of the `messages` table as returned by `_get_user_messages`
(plugin.py lines 557-590); the Style Analyzer reads `content` and `reply_to`. -/
structure Message where
  user_id : String
  user_name : String
  content : String
  send_time : Int
  session_id : String
  is_group : Bool
  reply_to : Option Int
deriving DecidableEq, Repr

/-- Sentence terminators of the split `re.split(r'[。！？!?.]', content)`. -/
def isSentenceSep (c : Char) : Bool :=
  c == '。' || c == '！' || c == '？' || c == '!' || c == '?' || c == '.'

/-- Characters in the emoji code-point range `[\U0001F600-\U0001F6FF]`. -/
def isEmojiChar (c : Char) : Bool :=
  0x1F600 ≤ c.toNat && c.toNat ≤ 0x1F6FF

/-- Count the characters of a string satisfying a predicate. -/
def charCount (s : String) (p : Char → Bool) : Nat := (s.toList.filter p).length

/-- Fixed formal-word set of `_analyze_language_style` (plugin.py line 365). -/
def formalWords : List String := ["您好", "请问", "谢谢", "对不起", "请"]

/-- Fixed informal-word set of `_analyze_language_style` (plugin.py line 366). -/
def informalWords : List String := ["哈哈", "嘿嘿", "哦哦", "嗯", "哎"]

/-- First accumulation loop of `_analyze_language_style` (plugin.py lines
350-358): total length, sentence count (`re.split` yields separator count plus
one parts per message), exclamation count, question count, emoji count. -/
def languageCounts (messages : List Message) : Nat × Nat × Nat × Nat × Nat :=
  messages.foldl
    (fun acc msg =>
      let (totalLen, sentences, excl, quest, emoji) := acc
      (totalLen + msg.content.toList.length,
       sentences + (charCount msg.content isSentenceSep + 1),
       excl + charCount msg.content (fun c => c == '!')
            + charCount msg.content (fun c => c == '！'),
       quest + charCount msg.content (fun c => c == '?')
            + charCount msg.content (fun c => c == '？'),
       emoji + charCount msg.content isEmojiChar))
    (0, 0, 0, 0, 0)

/-- `_analyze_language_style` (plugin.py lines 341-395), as the insertion-
ordered dict it returns. The formality loops count, per message, whether any
formal (resp. informal) word occurs in its content (the `break` makes each
loop contribute at most one per message). -/
def analyze_language_style (messages : List Message) : List (String × ℚ) :=
  let (totalLen, sentences, excl, quest, emoji) := languageCounts messages
  let avgLength : ℚ :=
    if messages.isEmpty then 0 else (totalLen : ℚ) / (messages.length : ℚ)
  let avgSentenceLength : ℚ :=
    if sentences == 0 then 0 else (totalLen : ℚ) / (sentences : ℚ)
  let formalCount :=
    messages.countP (fun m => formalWords.any (fun w => pyContains m.content w))
  let informalCount :=
    messages.countP (fun m => informalWords.any (fun w => pyContains m.content w))
  let formalDegree : ℚ :=
    if informalCount < formalCount then 7/10
    else if formalCount < informalCount then 3/10
    else 1/2
  [("formal_degree", formalDegree),
   ("avg_message_length", avgLength),
   ("avg_sentence_length", avgSentenceLength),
   ("exclamation_frequency",
     if messages.isEmpty then 0 else (excl : ℚ) / (messages.length : ℚ)),
   ("question_frequency",
     if messages.isEmpty then 0 else (quest : ℚ) / (messages.length : ℚ)),
   ("emoji_frequency",
     if messages.isEmpty then 0 else (emoji : ℚ) / (messages.length : ℚ))]

/-- Fixed positive-word set of `_analyze_emotional_style` (plugin.py line 400). -/
def positiveWords : List String := ["好", "开心", "快乐", "喜欢", "不错", "棒", "优秀"]

/-- Fixed negative-word set of `_analyze_emotional_style` (plugin.py line 401). -/
def negativeWords : List String := ["不好", "难过", "伤心", "讨厌", "糟糕", "差", "失望"]

/-- One iteration of the classification loop of `_analyze_emotional_style`
(plugin.py lines 407-419): matching both word sets or neither is neutral,
otherwise the single matching polarity. -/
def emotionStep (acc : Nat × Nat × Nat) (msg : Message) : Nat × Nat × Nat :=
  let (pos, neg, neu) := acc
  let hasPositive := positiveWords.any (fun w => pyContains msg.content w)
  let hasNegative := negativeWords.any (fun w => pyContains msg.content w)
  if hasPositive && hasNegative then (pos, neg, neu + 1)
  else if hasPositive then (pos + 1, neg, neu)
  else if hasNegative then (pos, neg + 1, neu)
  else (pos, neg, neu + 1)

/-- The classification loop of `_analyze_emotional_style`, accumulating
(positive, negative, neutral) counts over the batch. -/
def emotionalCounts (messages : List Message) : Nat × Nat × Nat :=
  messages.foldl emotionStep (0, 0, 0)

/-- Round a rational to the nearest integer, ties to even (the IEEE-754
default rounding of the tie case). -/
def rne (x : ℚ) : ℤ :=
  let f := ⌊x⌋
  let r := x - f
  if r < 1/2 then f
  else if 1/2 < r then f + 1
  else if f % 2 = 0 then f else f + 1

/-- The IEEE-754 binary64 value nearest a non-negative rational (round to
nearest, ties to even): scale into the 53-bit mantissa grid of the value's
binade (clamped at the subnormal threshold 2^(-1022)), round, and scale back.
Overflow to infinity is not modelled: every value this plugin produces lies in
[0, 3], far inside the finite range. -/
def roundDouble (x : ℚ) : ℚ :=
  if x = 0 then 0
  else
    let e : ℤ := max (Int.log 2 x) (-1022)
    ((rne (x * (2:ℚ) ^ ((52:ℤ) - e)) : ℚ)) * (2:ℚ) ^ (e - (52:ℤ))

/-- CPython `p / q` true division of two machine integers: the correctly
rounded binary64 quotient. -/
def fpDiv (p q : ℕ) : ℚ := roundDouble ((p : ℚ) / (q : ℚ))

/-- Python float addition: the correctly rounded binary64 sum of two
binary64 values. -/
def fpAdd (x y : ℚ) : ℚ := roundDouble (x + y)

/-- `Int.log 2` is characterized by its binade: the floor base-2 logarithm. -/
theorem int_log2_eq {x : ℚ} (hx : 0 < x) (e : ℤ)
    (h1 : (2:ℚ) ^ e ≤ x) (h2 : x < (2:ℚ) ^ (e + 1)) : Int.log 2 x = e := by
  have hb : 1 < 2 := by norm_num
  refine le_antisymm ?_ ?_
  · have := (Int.lt_zpow_iff_log_lt (R := ℚ) hb hx).mp (by exact_mod_cast h2)
    omega
  · exact (Int.zpow_le_iff_le_log (R := ℚ) hb hx).mp (by exact_mod_cast h1)

/-- `_analyze_emotional_style` (plugin.py lines 397-427), as the insertion-
ordered dict it returns; `emotion_expression_degree` is the fixed constant
0.5 (exactly representable). The three ratios are the IEEE binary64 values of
`count / total` that Python computes — the rounding matters here, because the
three rounded quotients need not sum to exactly 1. -/
def analyze_emotional_style (messages : List Message) : List (String × ℚ) :=
  let (pos, neg, neu) := emotionalCounts messages
  let total := messages.length
  [("positive_ratio", if total == 0 then 0 else fpDiv pos total),
   ("negative_ratio", if total == 0 then 0 else fpDiv neg total),
   ("neutral_ratio", if total == 0 then 0 else fpDiv neu total),
   ("emotion_expression_degree", 1/2)]

/-- The question test of `_analyze_conversation_style` (plugin.py line 440):
`content.endswith(('?', '？'))` on the raw, untrimmed content. -/
def endsWithQuestion (content : String) : Bool :=
  pyEndsWith content "?" || pyEndsWith content "？"

/-- Counting loop of `_analyze_conversation_style` (plugin.py lines 431-443):
(reply count, question count, statement count). -/
def conversationCounts (messages : List Message) : Nat × Nat × Nat :=
  messages.foldl
    (fun acc msg =>
      let (reply, quest, stmt) := acc
      let reply := if msg.reply_to.isSome then reply + 1 else reply
      if endsWithQuestion msg.content then (reply, quest + 1, stmt)
      else (reply, quest, stmt + 1))
    (0, 0, 0)

/-- `_analyze_conversation_style` (plugin.py lines 429-449), as the insertion-
ordered dict it returns. -/
def analyze_conversation_style (messages : List Message) : List (String × ℚ) :=
  let (reply, quest, stmt) := conversationCounts messages
  [("reply_ratio",
     if messages.isEmpty then 0 else (reply : ℚ) / (messages.length : ℚ)),
   ("question_ratio",
     if messages.isEmpty then 0 else (quest : ℚ) / (messages.length : ℚ)),
   ("statement_ratio",
     if messages.isEmpty then 0 else (stmt : ℚ) / (messages.length : ℚ))]

/-- One scene-pattern entry (plugin.py lines 461-481). -/
structure ScenePattern where
  scene : String
  expression : String
  confidence : ℚ
deriving DecidableEq, Repr

/-- ASCII lower-casing of a string, modelling `re.IGNORECASE` for the ASCII
alternatives of the greeting pattern (its CJK alternatives are case-stable). -/
def asciiLower (s : String) : String := ⟨s.toList.map Char.toLower⟩

/-- Greeting pattern `(你好|您好|早上好|晚上好|hello|hi)` with `re.IGNORECASE`. -/
def greetingMatch (content : String) : Bool :=
  ["你好", "您好", "早上好", "晚上好", "hello", "hi"].any
    (fun w => pyContains (asciiLower content) w)

/-- Help-seeking pattern `(帮我|求助|需要|怎么|如何)`. -/
def helpMatch (content : String) : Bool :=
  ["帮我", "求助", "需要", "怎么", "如何"].any (fun w => pyContains content w)

/-- Thanks pattern `(谢谢|感谢|谢了|麻烦了)`. -/
def thanksMatch (content : String) : Bool :=
  ["谢谢", "感谢", "谢了", "麻烦了"].any (fun w => pyContains content w)

/-- `_extract_scene_patterns` (plugin.py lines 451-483): per message the three
pattern groups are tested in if/elif priority order, first match wins; a
message matching none contributes no entry. -/
def extract_scene_patterns (messages : List Message) : List ScenePattern :=
  messages.foldl
    (fun patterns msg =>
      if greetingMatch msg.content then
        patterns ++ [{ scene := "greeting", expression := msg.content, confidence := 9/10 }]
      else if helpMatch msg.content then
        patterns ++ [{ scene := "request_help", expression := msg.content, confidence := 8/10 }]
      else if thanksMatch msg.content then
        patterns ++ [{ scene := "thanks", expression := msg.content, confidence := 9/10 }]
      else patterns)
    []

/-- The Style Analyzer's output bundle (`_analyze_style` result dict); each
style dimension is the insertion-ordered dict the sub-analyzer returned. -/
structure StyleBundle where
  user_id : String
  language_style : List (String × ℚ)
  emotional_style : List (String × ℚ)
  conversation_style : List (String × ℚ)
  scene_patterns : List ScenePattern
  update_time : Int
deriving DecidableEq, Repr

/-- `_analyze_style` (plugin.py lines 325-339): the empty batch yields the
empty dict (modelled as `none`); otherwise the full bundle. `now` stands for
`int(time.time())`. -/
def analyze_style (user_id : String) (now : Int) (messages : List Message) :
    Option StyleBundle :=
  if messages.isEmpty then none
  else some
    { user_id := user_id
      language_style := analyze_language_style messages
      emotional_style := analyze_emotional_style messages
      conversation_style := analyze_conversation_style messages
      scene_patterns := extract_scene_patterns messages
      update_time := now }

/-- A row of the `style_features` table. `feature_value` is stored as text;
since Python `float(str(x)) == x` exactly for floats, the text encoding is
modelled as the identity on the rational value. -/
structure FeatureRow where
  user_id : String
  feature_name : String
  feature_value : ℚ
  confidence : ℚ
deriving DecidableEq, Repr

/-- `_save_style_features` (plugin.py lines 592-632): flatten the bundle into
upserted rows named `language_<field>` (confidence 0.8), `emotion_<field>`
(confidence 0.7), `conversation_<field>` (confidence 0.8), in the dicts'
iteration order. Returns the rows inserted into a fresh table, in insertion
order (the names are pairwise distinct, so upsert is plain insertion). -/
def save_style_features (user_id : String) (style : StyleBundle) : List FeatureRow :=
  (style.language_style.map (fun fv =>
    { user_id := user_id, feature_name := "language_" ++ fv.1
      feature_value := fv.2, confidence := 8/10 }))
  ++ (style.emotional_style.map (fun fv =>
    { user_id := user_id, feature_name := "emotion_" ++ fv.1
      feature_value := fv.2, confidence := 7/10 }))
  ++ (style.conversation_style.map (fun fv =>
    { user_id := user_id, feature_name := "conversation_" ++ fv.1
      feature_value := fv.2, confidence := 8/10 }))

/-- Python `s[n:]` on a string (code-point slicing). -/
def strDropChars (s : String) (n : Nat) : String := ⟨s.toList.drop n⟩

/-- Reconstruction step of `_get_user_style` (plugin.py lines 712-720): route
one row into the bundle dimension named by its prefix, assigning under the
stripped field name. -/
def assignFeatureRow (b : StyleBundle) (row : FeatureRow) : StyleBundle :=
  if pyStartsWith row.feature_name "language_" then
    { b with language_style :=
        pyDictSet b.language_style (strDropChars row.feature_name 9) row.feature_value }
  else if pyStartsWith row.feature_name "emotion_" then
    { b with emotional_style :=
        pyDictSet b.emotional_style (strDropChars row.feature_name 8) row.feature_value }
  else if pyStartsWith row.feature_name "conversation_" then
    { b with conversation_style :=
        pyDictSet b.conversation_style (strDropChars row.feature_name 13) row.feature_value }
  else b

/-- `_get_user_style` (plugin.py lines 678-730): serve from the in-memory
cache when present; otherwise read the user's rows, return `none` when there
are none, else rebuild a bundle (empty dimensions, empty scene patterns,
`update_time` set to the current time) by folding the rows. `rows` is the
persisted `style_features` table in insertion order. -/
def get_user_style (styleCache : List (String × StyleBundle))
    (rows : List FeatureRow) (user_id : String) (now : Int) : Option StyleBundle :=
  match pyLookup styleCache user_id with
  | some cached => some cached
  | none =>
    let userRows := rows.filter (fun r => r.user_id == user_id)
    if userRows.isEmpty then none
    else some (userRows.foldl assignFeatureRow
      { user_id := user_id, language_style := [], emotional_style := []
        conversation_style := [], scene_patterns := [], update_time := now })

/-- Dict indexing `style_dict["key"]` inside `get_style_prompt`: a missing key
is a KeyError. -/
def dictIndex (l : List (String × ℚ)) (k : String) : Except PyError ℚ :=
  match pyLookup l k with
  | some v => .ok v
  | none => .error PyError.keyError

/-- The `prompt_parts` list built by `get_style_prompt` (plugin.py lines
644-674): a header, one formality line, then conditionally appended lines.
The optimism/caution pair is an if/elif: the caution line can only appear when
the optimism condition failed. -/
def stylePromptParts (style : StyleBundle) : Except PyError (List String) :=
  match dictIndex style.language_style "formal_degree" with
  | .error e => .error e
  | .ok fd =>
  match dictIndex style.language_style "emoji_frequency" with
  | .error e => .error e
  | .ok emoji =>
  match dictIndex style.language_style "exclamation_frequency" with
  | .error e => .error e
  | .ok excl =>
  match dictIndex style.emotional_style "positive_ratio" with
  | .error e => .error e
  | .ok pos =>
  match dictIndex style.emotional_style "negative_ratio" with
  | .error e => .error e
  | .ok neg =>
  match dictIndex style.conversation_style "reply_ratio" with
  | .error e => .error e
  | .ok reply =>
  match dictIndex style.conversation_style "question_ratio" with
  | .error e => .error e
  | .ok quest =>
    .ok (["请模仿以下说话风格回复："]
      ++ [if 7/10 < fd then "- 正式礼貌的语气"
          else if fd < 3/10 then "- 随意轻松的语气"
          else "- 适中得体的语气"]
      ++ (if 1/2 < emoji then ["- 适当使用表情符号"] else [])
      ++ (if 3/10 < excl then ["- 偶尔使用感叹号"] else [])
      ++ (if 3/5 < pos then ["- 积极乐观的态度"]
          else if 2/5 < neg then ["- 较为谨慎的态度"] else [])
      ++ (if 1/2 < reply then ["- 注重回复他人的问题"] else [])
      ++ (if 3/10 < quest then ["- 适当提问引导对话"] else []))

/-- `get_style_prompt` (plugin.py lines 635-676): empty text when no style is
known, otherwise the joined directive lines. -/
def get_style_prompt (styleCache : List (String × StyleBundle))
    (rows : List FeatureRow) (user_id : String) (now : Int) :
    Except PyError String :=
  match get_user_style styleCache rows user_id now with
  | none => .ok ""
  | some style =>
    match stylePromptParts style with
    | .error e => .error e
    | .ok parts => .ok (String.intercalate "\n" parts)

/-- State of the Learning Scheduler: the `learning_tasks` marker registry keys
and the sessions with an analysis task actually in flight. Both are only ever
touched under `tasks_lock`, so the events below are atomic steps. -/
structure SchedState where
  markers : List String
  running : List String
deriving DecidableEq, Repr

/-- Atomic scheduler events. `trigger` is `_trigger_learning` (plugin.py lines
486-507) for one accepted message, with `ready` standing for the check
`_get_valid_message_count(user_id) >= batch_size`; `finish` is the `finally`
block of `_batch_learning` (plugin.py lines 551-555) running when the task
ends, with `success` telling whether the body succeeded or raised. -/
inductive SchedEvent where
  | trigger (session_id : String) (ready : Bool)
  | finish (session_id : String) (success : Bool)
deriving DecidableEq, Repr

/-- One atomic scheduler step. A trigger while the session's marker is present
is a no-op (the registry only ever stores live `Thread` objects, which are
truthy); otherwise, when ready, the task is spawned and the marker registered
in the same locked section. A finishing task deletes its session's marker
unconditionally, success or failure alike. -/
def schedStep (st : SchedState) (e : SchedEvent) : SchedState :=
  match e with
  | .trigger session_id ready =>
    if st.markers.contains session_id then st
    else if ready then
      { markers := session_id :: st.markers, running := session_id :: st.running }
    else st
  | .finish session_id _ =>
    { markers := st.markers.erase session_id, running := st.running.erase session_id }

/-- The scheduler state at plugin start: no markers, no running tasks. -/
def initSched : SchedState := { markers := [], running := [] }

/-- The fields captured by the leading-timestamp regex of
`import_chat_history` (plugin.py line 882): an optional bracket, four year
digits, a `-` or `/` separator, two month digits, another separator, two day
digits, one whitespace, then `HH:MM:SS`. -/
structure TsParts where
  year : Nat
  month : Nat
  day : Nat
  hour : Nat
  minute : Nat
  second : Nat
  sep1 : Char
  sep2 : Char
deriving DecidableEq, Repr

/-- Read exactly `n` decimal digits from the front of a character list. -/
def takeDigits : Nat → List Char → Option (Nat × List Char)
  | 0, l => some (0, l)
  | n + 1, c :: rest =>
    if c.isDigit then
      match takeDigits n rest with
      | some (v, rest') => some ((c.toNat - '0'.toNat) * 10 ^ n + v, rest')
      | none => none
    else none
  | _ + 1, [] => none

/-- Match one date separator, `-` or `/`. -/
def takeSep : List Char → Option (Char × List Char)
  | c :: rest => if c == '-' || c == '/' then some (c, rest) else none
  | [] => none

/-- Match one literal character. -/
def takeLit (ch : Char) : List Char → Option (List Char)
  | c :: rest => if c == ch then some rest else none
  | [] => none

/-- The timestamp pattern matched against the start of the (already stripped)
line: an optional `[`, then the captured group (`^` anchors `re.search` at
position 0; when a leading `[` is consumed and the body fails, backtracking
to the empty `\[?` cannot succeed either, since `[` is not a digit). -/
def match_timestamp (line : String) : Option TsParts :=
  let l := line.toList
  let l := match l with
    | '[' :: rest => rest
    | _ => l
  match takeDigits 4 l with
  | none => none
  | some (y, l) =>
  match takeSep l with
  | none => none
  | some (s1, l) =>
  match takeDigits 2 l with
  | none => none
  | some (mo, l) =>
  match takeSep l with
  | none => none
  | some (s2, l) =>
  match takeDigits 2 l with
  | none => none
  | some (d, l) =>
  match l with
  | [] => none
  | ws :: l =>
    if !ws.isWhitespace then none
    else
    match takeDigits 2 l with
    | none => none
    | some (h, l) =>
    match takeLit ':' l with
    | none => none
    | some l =>
    match takeDigits 2 l with
    | none => none
    | some (mi, l) =>
    match takeLit ':' l with
    | none => none
    | some l =>
    match takeDigits 2 l with
    | none => none
    | some (s, _) =>
      some { year := y, month := mo, day := d, hour := h, minute := mi
             second := s, sep1 := s1, sep2 := s2 }

/-- Gregorian leap-year test. -/
def isLeapYear (y : Nat) : Bool := (y % 4 == 0 && y % 100 != 0) || y % 400 == 0

/-- Days in a Gregorian month. -/
def daysInMonth (y m : Nat) : Nat :=
  if m == 2 then (if isLeapYear y then 29 else 28)
  else if m == 4 || m == 6 || m == 9 || m == 11 then 30
  else 31

/-- Whether `datetime.strptime(captured, '%Y-%m-%d %H:%M:%S')` succeeds on the
captured text: both separators must be the literal `-` (a `/` separator makes
strptime raise ValueError although the regex matched), and the field values
must form a real calendar date-time (whitespace in the format matches the
captured `\s` character). -/
def strptimeValid (p : TsParts) : Bool :=
  p.sep1 == '-' && p.sep2 == '-'
  && 1 ≤ p.year && 1 ≤ p.month && p.month ≤ 12
  && 1 ≤ p.day && p.day ≤ daysInMonth p.year p.month
  && p.hour ≤ 23 && p.minute ≤ 59 && p.second ≤ 59

/-- Days from the Unix epoch to a civil date (valid Gregorian date, year ≥ 1). -/
def daysFromCivil (yN mN dN : Nat) : Int :=
  let y : Int := if mN ≤ 2 then (yN : Int) - 1 else (yN : Int)
  let m : Int := (mN : Int)
  let d : Int := (dN : Int)
  let era : Int := y / 400
  let yoe : Int := y - era * 400
  let doy : Int := (153 * (m + (if 2 < m then (-3 : Int) else 9)) + 2) / 5 + d - 1
  let doe : Int := yoe * 365 + yoe / 4 - yoe / 100 + doy
  era * 146097 + doe - 719468

/-- `int(datetime.strptime(...).timestamp())` for a valid captured timestamp
(`.timestamp()` reads the naive datetime in local time; modelled as UTC). -/
def tsToUnix (p : TsParts) : Int :=
  daysFromCivil p.year p.month p.day * 86400
    + (p.hour : Int) * 3600 + (p.minute : Int) * 60 + (p.second : Int)

/-- The five per-line outcome counters of `import_chat_history`
(plugin.py lines 860-868; the start/end wall-clock fields carry no per-line
information and are omitted). -/
structure ImportTally where
  total_lines : Nat
  imported_lines : Nat
  filtered_lines : Nat
  duplicate_lines : Nat
  error_lines : Nat
deriving DecidableEq, Repr

/-- The guarded per-line body of `import_chat_history` (plugin.py lines
901-929), entered once the line's timestamp has been determined: validate,
filter, check the import-scoped dedup key, store. Any exception inside this
region is caught and counted as an error line; in the model the body is total
once `content` is a string, but the error branches are kept faithfully. -/
def import_process_line (cfg : MessageFilterConfig) (now : Int)
    (user_id user_name session_id : String) (timestamp : Int) (line : String)
    (st : PState) (t : ImportTally) : PState × ImportTally :=
  let message : PyDict :=
    [("user_id", PyVal.vStr user_id),
     ("user_name", PyVal.vStr user_name),
     ("content", PyVal.vStr line),
     ("send_time", PyVal.vInt timestamp),
     ("session_id", PyVal.vStr session_id),
     ("is_group", PyVal.vBool false),
     ("reply_to", PyVal.vNone)]
  if is_valid_message_format message = false then
    (st, { t with error_lines := t.error_lines + 1 })
  else
    let md := extract_message_metadata message
    match filter_message cfg md with
    | .error _ => (st, { t with error_lines := t.error_lines + 1 })
    | .ok false => (st, { t with filtered_lines := t.filtered_lines + 1 })
    | .ok true =>
      let key := "import:" ++ session_id ++ ":" ++ md5hex line
      if (pyLookup st.cache key).isSome then
        (st, { t with duplicate_lines := t.duplicate_lines + 1 })
      else
        let st := { st with cache := pyDictSet st.cache key { timestamp := now, count := 1 } }
        (save_message st md, { t with imported_lines := t.imported_lines + 1 })

/-- One full line of the import loop (plugin.py lines 876-899): strip; skip
when empty (tallied nowhere); parse the leading timestamp, aborting the whole
loop when the regex matched but `strptime` raises (this happens outside the
per-line `try`, so the exception reaches the outer handler); otherwise
synthesize `int(time.time()) - (len(lines) - i) * 60` and run the guarded
body (the float cache timestamp and the integer send time are the same `now`
in the integer-seconds clock model). The Boolean is the abort flag. -/
def import_line_step (cfg : MessageFilterConfig) (now : Int)
    (user_id user_name session_id : String) (nLines i : Nat)
    (st : PState) (t : ImportTally) (rawLine : String) :
    PState × ImportTally × Bool :=
  let line := pyStrip rawLine
  if line.toList.isEmpty then (st, t, false)
  else
    match match_timestamp line with
    | some parts =>
      if strptimeValid parts then
        let (st', t') :=
          import_process_line cfg now user_id user_name session_id
            (tsToUnix parts) line st t
        (st', t', false)
      else (st, t, true)
    | none =>
      let (st', t') :=
        import_process_line cfg now user_id user_name session_id
          (now - ((nLines : Int) - (i : Int)) * 60) line st t
      (st', t', false)

/-- The import loop over the remaining lines, threading the enumeration index. -/
def import_loop (cfg : MessageFilterConfig) (now : Int)
    (user_id user_name session_id : String) (nLines : Nat) :
    List String → Nat → PState → ImportTally → PState × ImportTally × Bool
  | [], _, st, t => (st, t, false)
  | rawLine :: rest, i, st, t =>
    match import_line_step cfg now user_id user_name session_id
        nLines i st t rawLine with
    | (st', t', true) => (st', t', true)
    | (st', t', false) =>
      import_loop cfg now user_id user_name session_id nLines
        rest (i + 1) st' t'

/-- `import_chat_history` (plugin.py lines 848-964) for a file whose lines
were read successfully. On an abort (propagated strptime ValueError) the outer
handler folds all unaccounted lines into the error counter. The post-import
bootstrap analysis (lines 939-954) only writes style features and never
touches the tally; it is not part of this state model. -/
def import_chat_history (cfg : MessageFilterConfig) (now : Int)
    (st : PState) (user_id user_name session_id : String)
    (lines : List String) : PState × ImportTally :=
  let t0 : ImportTally :=
    { total_lines := lines.length, imported_lines := 0, filtered_lines := 0
      duplicate_lines := 0, error_lines := 0 }
  match import_loop cfg now user_id user_name session_id
      lines.length lines 0 st t0 with
  | (st', t, false) => (st', t)
  | (st', t, true) =>
    (st', { t with error_lines := t.error_lines +
        (t.total_lines - t.imported_lines - t.filtered_lines - t.duplicate_lines) })

/-- Unfolding lemma for `pyLookup` on a cons cell. -/
theorem pyLookup_cons {α : Type} (k' : String) (v : α) (l : List (String × α))
    (k : String) :
    pyLookup ((k', v) :: l) k = if k' == k then some v else pyLookup l k := by
  by_cases h : k' == k <;> simp [pyLookup, List.find?_cons, h]

/-- Characterization of the conversation-counting loop: the three accumulated
counters are the counts of replies, question-classified messages and the
remaining (statement) messages. -/
theorem conversationCounts_eq (messages : List Message) :
    conversationCounts messages =
      (messages.countP (fun m => m.reply_to.isSome),
       messages.countP (fun m => endsWithQuestion m.content),
       messages.countP (fun m => !endsWithQuestion m.content)) := by
  suffices h : ∀ (l : List Message) (r q s : Nat),
      l.foldl (fun acc msg =>
        let (reply, quest, stmt) := acc
        let reply := if msg.reply_to.isSome then reply + 1 else reply
        if endsWithQuestion msg.content then (reply, quest + 1, stmt)
        else (reply, quest, stmt + 1)) (r, q, s) =
      (r + l.countP (fun m => m.reply_to.isSome),
       q + l.countP (fun m => endsWithQuestion m.content),
       s + l.countP (fun m => !endsWithQuestion m.content)) by
    simpa [conversationCounts] using h messages 0 0 0
  intro l
  induction l with
  | nil => intro r q s; simp
  | cons m ms ih =>
    intro r q s
    by_cases h1 : m.reply_to.isSome <;> by_cases h2 : endsWithQuestion m.content <;>
      simp [List.foldl_cons, h1, h2, ih, List.countP_cons] <;> omega

/-- The question and statement counters of the conversation loop partition the
batch. -/
theorem conversationCounts_partition (messages : List Message) :
    (conversationCounts messages).2.1 + (conversationCounts messages).2.2 =
      messages.length := by
  rw [conversationCounts_eq]
  simpa using List.length_eq_countP_add_countP
    (l := messages) (p := fun m => endsWithQuestion m.content) |>.symm

/-- The three emotion counters partition the batch: each message lands in
exactly one of the positive, negative or neutral classes. -/
theorem emotionalCounts_partition (messages : List Message) :
    (emotionalCounts messages).1 + (emotionalCounts messages).2.1 +
      (emotionalCounts messages).2.2 = messages.length := by
  suffices h : ∀ (l : List Message) (p n u : Nat),
      (l.foldl emotionStep (p, n, u)).1 + (l.foldl emotionStep (p, n, u)).2.1 +
        (l.foldl emotionStep (p, n, u)).2.2 = p + n + u + l.length by
    simpa [emotionalCounts] using h messages 0 0 0
  intro l
  induction l with
  | nil => intro p n u; simp
  | cons m ms ih =>
    intro p n u
    rw [List.foldl_cons]
    by_cases h1 : positiveWords.any (fun w => pyContains m.content w) <;>
      by_cases h2 : negativeWords.any (fun w => pyContains m.content w)
    · have hs : emotionStep (p, n, u) m = (p, n, u + 1) := by
        simp [emotionStep, h1, h2]
      rw [hs, ih, List.length_cons]; omega
    · have hs : emotionStep (p, n, u) m = (p + 1, n, u) := by
        simp [emotionStep, h1, h2]
      rw [hs, ih, List.length_cons]; omega
    · have hs : emotionStep (p, n, u) m = (p, n + 1, u) := by
        simp [emotionStep, h1, h2]
      rw [hs, ih, List.length_cons]; omega
    · have hs : emotionStep (p, n, u) m = (p, n, u + 1) := by
        simp [emotionStep, h1, h2]
      rw [hs, ih, List.length_cons]; omega

/-- A plain message used by concrete witnesses. -/
def sampleMsg : Message :=
  { user_id := "u", user_name := "n", content := "hello", send_time := 0
    session_id := "s", is_group := false, reply_to := none }

/-- A message whose trimmed content ends in a question mark but whose raw
content does not (trailing space). -/
def questionSpaceMsg : Message :=
  { user_id := "u", user_name := "n", content := "ok? ", send_time := 0
    session_id := "s", is_group := false, reply_to := none }

/-- C7 counterexample: for the message with content `"ok? "`, the trimmed
content ends with `?`, so the claim classifies it as a question and demands
`question_ratio = 1`; the code tests the raw, untrimmed content and produces
`question_ratio = 0` (a statement). -/
theorem c7_counterexample :
    endsWithQuestion (pyStrip questionSpaceMsg.content) = true ∧
    pyLookup (analyze_conversation_style [questionSpaceMsg]) "question_ratio" =
      some 0 ∧
    ¬ pyLookup (analyze_conversation_style [questionSpaceMsg]) "question_ratio" =
      some 1 := by
  have h1 : endsWithQuestion questionSpaceMsg.content = false := by decide
  have h2 : pyLookup (analyze_conversation_style [questionSpaceMsg])
      "question_ratio" = some 0 := by
    simp [analyze_conversation_style, conversationCounts_eq, pyLookup_cons,
      List.countP_cons, h1]
  refine ⟨by decide, h2, by rw [h2]; simp⟩

/-- C7 (amended): on a non-empty batch, a message is classified as a question
exactly when its raw (untrimmed) content ends with `?` or `？`; the question,
statement and reply ratios are the corresponding fractions of the batch. -/
theorem c7_amended_conversation_style (messages : List Message)
    (h : messages ≠ []) :
    pyLookup (analyze_conversation_style messages) "question_ratio" =
      some ((messages.countP (fun m => endsWithQuestion m.content) : ℚ) /
        (messages.length : ℚ)) ∧
    pyLookup (analyze_conversation_style messages) "statement_ratio" =
      some ((messages.countP (fun m => !endsWithQuestion m.content) : ℚ) /
        (messages.length : ℚ)) ∧
    pyLookup (analyze_conversation_style messages) "reply_ratio" =
      some ((messages.countP (fun m => m.reply_to.isSome) : ℚ) /
        (messages.length : ℚ)) := by
  obtain ⟨m, ms, rfl⟩ := List.exists_cons_of_ne_nil h
  simp only [analyze_conversation_style, conversationCounts_eq]
  refine ⟨?_, ?_, ?_⟩ <;>
    simp [pyLookup_cons, List.isEmpty_cons]

/-- C7 witness: the amended theorem evaluated on a concrete singleton batch. -/
theorem c7_witness :
    pyLookup (analyze_conversation_style [sampleMsg]) "question_ratio" =
      some (((List.countP (fun m => endsWithQuestion m.content) [sampleMsg] : ℚ)) /
        ((List.length [sampleMsg] : ℚ))) :=
  (c7_amended_conversation_style [sampleMsg] (by simp)).1

/-- C8: the Style Analyzer returns the empty bundle on an empty batch, and on
any non-empty batch the question and statement ratios of the conversation
dimension sum to 1. -/
theorem c8_empty_and_ratio_sum :
    (∀ (user_id : String) (now : Int), analyze_style user_id now [] = none) ∧
    (∀ (user_id : String) (now : Int) (messages : List Message),
      messages ≠ [] →
      ∃ (b : StyleBundle) (q s : ℚ),
        analyze_style user_id now messages = some b ∧
        pyLookup b.conversation_style "question_ratio" = some q ∧
        pyLookup b.conversation_style "statement_ratio" = some s ∧
        q + s = 1) := by
  constructor
  · intro user_id now; simp [analyze_style]
  · intro user_id now messages h
    obtain ⟨m, ms, rfl⟩ := List.exists_cons_of_ne_nil h
    have hpart : (m :: ms).countP (fun x => endsWithQuestion x.content) +
        (m :: ms).countP (fun x => !endsWithQuestion x.content) =
        (m :: ms).length := by
      simpa using (List.length_eq_countP_add_countP
        (l := m :: ms) (p := fun x => endsWithQuestion x.content)).symm
    refine ⟨_,
      (((m :: ms).countP (fun x => endsWithQuestion x.content) : ℚ)) /
        ((m :: ms).length : ℚ),
      (((m :: ms).countP (fun x => !endsWithQuestion x.content) : ℚ)) /
        ((m :: ms).length : ℚ),
      rfl, ?_, ?_, ?_⟩
    · simp [analyze_style, analyze_conversation_style, conversationCounts_eq,
        pyLookup_cons]
    · simp [analyze_style, analyze_conversation_style, conversationCounts_eq,
        pyLookup_cons]
    · have hn : ((m :: ms).length : ℚ) ≠ 0 := Nat.cast_ne_zero.mpr (by simp)
      rw [div_add_div_same]
      rw [show (((m :: ms).countP (fun x => endsWithQuestion x.content) : ℚ)) +
            (((m :: ms).countP (fun x => !endsWithQuestion x.content) : ℚ)) =
          (((m :: ms).countP (fun x => endsWithQuestion x.content) +
            (m :: ms).countP (fun x => !endsWithQuestion x.content) : ℕ) : ℚ)
        by push_cast; ring]
      rw [hpart, div_self hn]

/-- C8 witness: the non-empty branch of the theorem evaluated on a concrete
singleton batch. -/
theorem c8_witness :
    ∃ (b : StyleBundle) (q s : ℚ),
      analyze_style "u" 0 [sampleMsg] = some b ∧
      pyLookup b.conversation_style "question_ratio" = some q ∧
      pyLookup b.conversation_style "statement_ratio" = some s ∧
      q + s = 1 :=
  c8_empty_and_ratio_sum.2 "u" 0 [sampleMsg] (by simp)

/-- A message with the given content, used by the emotional-ratio batch. -/
def emoMsg (c : String) : Message :=
  { user_id := "u", user_name := "n", content := c, send_time := 0
    session_id := "s", is_group := false, reply_to := none }

/-- A six-message batch with one positive, four negative and one neutral
message: emotional counts (1, 4, 1). -/
def emoBatch : List Message :=
  [emoMsg "棒", emoMsg "差", emoMsg "差", emoMsg "差", emoMsg "差", emoMsg "嗯"]

/-- C10 counterexample: on the six-message batch with emotional counts
(1, 4, 1) the stored ratios are the binary64 roundings of 1/6, 4/6 and 1/6;
Python's left-associated float sum of the three comes out to
(2^53 - 1)/2^53 = 0.9999999999999999, which is not 1, and even the exact
rational sum of the three stored doubles misses 1 (by 2^(-54)), so
positive_ratio + negative_ratio + neutral_ratio == 1 fails however the sum is
evaluated. -/
theorem c10_counterexample :
    pyLookup (analyze_emotional_style emoBatch) "positive_ratio" =
      some ((6004799503160661 : ℚ) / 2 ^ 55) ∧
    pyLookup (analyze_emotional_style emoBatch) "negative_ratio" =
      some ((6004799503160661 : ℚ) / 2 ^ 53) ∧
    pyLookup (analyze_emotional_style emoBatch) "neutral_ratio" =
      some ((6004799503160661 : ℚ) / 2 ^ 55) ∧
    fpAdd (fpAdd ((6004799503160661 : ℚ) / 2 ^ 55)
        ((6004799503160661 : ℚ) / 2 ^ 53)) ((6004799503160661 : ℚ) / 2 ^ 55) =
      ((2 : ℚ) ^ 53 - 1) / 2 ^ 53 ∧
    ¬ ((2 : ℚ) ^ 53 - 1) / 2 ^ 53 = 1 ∧
    ¬ ((6004799503160661 : ℚ) / 2 ^ 55 + (6004799503160661 : ℚ) / 2 ^ 53 +
        (6004799503160661 : ℚ) / 2 ^ 55) = 1 := by
  have hcounts : emotionalCounts emoBatch = (1, 4, 1) := by decide
  have hlen : emoBatch.length = 6 := by decide
  have hA : fpDiv 1 6 = (6004799503160661 : ℚ) / 2 ^ 55 := by
    have hlog : Int.log 2 (((1:ℕ) : ℚ) / ((6:ℕ) : ℚ)) = -3 :=
      int_log2_eq (by norm_num) (-3) (by norm_num) (by norm_num)
    simp only [fpDiv, roundDouble, rne, hlog]
    norm_num
  have hB : fpDiv 4 6 = (6004799503160661 : ℚ) / 2 ^ 53 := by
    have hlog : Int.log 2 (((4:ℕ) : ℚ) / ((6:ℕ) : ℚ)) = -1 :=
      int_log2_eq (by norm_num) (-1) (by norm_num) (by norm_num)
    simp only [fpDiv, roundDouble, rne, hlog]
    norm_num
  refine ⟨?_, ?_, ?_, ?_, by norm_num, by norm_num⟩
  · simp [analyze_emotional_style, hcounts, hlen, pyLookup_cons, hA]
  · simp [analyze_emotional_style, hcounts, hlen, pyLookup_cons, hB]
  · simp [analyze_emotional_style, hcounts, hlen, pyLookup_cons, hA]
  · have h1 : fpAdd ((6004799503160661 : ℚ) / 2 ^ 55)
        ((6004799503160661 : ℚ) / 2 ^ 53) = (7505999378950826 : ℚ) / 2 ^ 53 := by
      have hlog : Int.log 2 ((6004799503160661 : ℚ) / 2 ^ 55 +
          (6004799503160661 : ℚ) / 2 ^ 53) = -1 :=
        int_log2_eq (by norm_num) (-1) (by norm_num) (by norm_num)
      simp only [fpAdd, roundDouble, rne, hlog]
      norm_num
    rw [h1]
    have hlog : Int.log 2 ((7505999378950826 : ℚ) / 2 ^ 53 +
        (6004799503160661 : ℚ) / 2 ^ 55) = -1 :=
      int_log2_eq (by norm_num) (-1) (by norm_num) (by norm_num)
    simp only [fpAdd, roundDouble, rne, hlog]
    norm_num

/-- C10 amended: on a non-empty batch the positive, negative and neutral
classes partition the batch — the three counts sum to the batch length, so the
three exact fractions count/total sum to 1 — and each stored ratio is the IEEE
binary64 rounding of its exact fraction. The stored floats themselves need not
sum to 1: the rounding can leave the float sum one ulp short, as in the
counterexample. -/
theorem c10_amended_emotion_partition (messages : List Message)
    (h : messages ≠ []) :
    (emotionalCounts messages).1 + (emotionalCounts messages).2.1 +
      (emotionalCounts messages).2.2 = messages.length ∧
    pyLookup (analyze_emotional_style messages) "positive_ratio" =
      some (fpDiv (emotionalCounts messages).1 messages.length) ∧
    pyLookup (analyze_emotional_style messages) "negative_ratio" =
      some (fpDiv (emotionalCounts messages).2.1 messages.length) ∧
    pyLookup (analyze_emotional_style messages) "neutral_ratio" =
      some (fpDiv (emotionalCounts messages).2.2 messages.length) ∧
    ((emotionalCounts messages).1 : ℚ) / (messages.length : ℚ) +
      ((emotionalCounts messages).2.1 : ℚ) / (messages.length : ℚ) +
      ((emotionalCounts messages).2.2 : ℚ) / (messages.length : ℚ) = 1 := by
  obtain ⟨m, ms, rfl⟩ := List.exists_cons_of_ne_nil h
  have hpart := emotionalCounts_partition (m :: ms)
  refine ⟨hpart, ?_, ?_, ?_, ?_⟩
  · simp [analyze_emotional_style, pyLookup_cons]
  · simp [analyze_emotional_style, pyLookup_cons]
  · simp [analyze_emotional_style, pyLookup_cons]
  · have hn : ((m :: ms).length : ℚ) ≠ 0 := Nat.cast_ne_zero.mpr (by simp)
    rw [div_add_div_same, div_add_div_same]
    rw [show ((emotionalCounts (m :: ms)).1 : ℚ) +
          ((emotionalCounts (m :: ms)).2.1 : ℚ) +
          ((emotionalCounts (m :: ms)).2.2 : ℚ) =
        (((emotionalCounts (m :: ms)).1 + (emotionalCounts (m :: ms)).2.1 +
          (emotionalCounts (m :: ms)).2.2 : ℕ) : ℚ)
      by push_cast; ring]
    rw [hpart, div_self hn]

/-- C10 amended witness: the amended theorem evaluated on a concrete
singleton batch. -/
theorem c10_amended_witness :
    (emotionalCounts [sampleMsg]).1 + (emotionalCounts [sampleMsg]).2.1 +
      (emotionalCounts [sampleMsg]).2.2 = [sampleMsg].length ∧
    pyLookup (analyze_emotional_style [sampleMsg]) "positive_ratio" =
      some (fpDiv (emotionalCounts [sampleMsg]).1 [sampleMsg].length) ∧
    pyLookup (analyze_emotional_style [sampleMsg]) "negative_ratio" =
      some (fpDiv (emotionalCounts [sampleMsg]).2.1 [sampleMsg].length) ∧
    pyLookup (analyze_emotional_style [sampleMsg]) "neutral_ratio" =
      some (fpDiv (emotionalCounts [sampleMsg]).2.2 [sampleMsg].length) ∧
    ((emotionalCounts [sampleMsg]).1 : ℚ) / ([sampleMsg].length : ℚ) +
      ((emotionalCounts [sampleMsg]).2.1 : ℚ) / ([sampleMsg].length : ℚ) +
      ((emotionalCounts [sampleMsg]).2.2 : ℚ) / ([sampleMsg].length : ℚ) = 1 :=
  c10_amended_emotion_partition [sampleMsg] (by simp)

/-- A fully-populated style bundle whose positive ratio exceeds 0.6 and whose
negative ratio exceeds 0.4 at the same time. -/
def cautionBundle : StyleBundle :=
  { user_id := "u"
    language_style :=
      [("formal_degree", 1/2), ("avg_message_length", 0),
       ("avg_sentence_length", 0), ("exclamation_frequency", 0),
       ("question_frequency", 0), ("emoji_frequency", 0)]
    emotional_style :=
      [("positive_ratio", 7/10), ("negative_ratio", 1/2),
       ("neutral_ratio", 0), ("emotion_expression_degree", 1/2)]
    conversation_style :=
      [("reply_ratio", 0), ("question_ratio", 0), ("statement_ratio", 1)]
    scene_patterns := []
    update_time := 0 }

/-- C9 counterexample: in `cautionBundle` the negative ratio 1/2 is above 0.4,
so the claim demands a caution directive; but the positive ratio 7/10 is above
0.6 and the code's if/elif emits only the optimism directive — the caution
line is absent from the output. -/
theorem c9_counterexample :
    pyLookup cautionBundle.emotional_style "negative_ratio" = some (1/2) ∧
    (2/5 : ℚ) < 1/2 ∧
    ∃ parts, stylePromptParts cautionBundle = .ok parts ∧
      "- 较为谨慎的态度" ∉ parts := by
  refine ⟨rfl, by norm_num, ?_⟩
  refine ⟨["请模仿以下说话风格回复：", "- 适中得体的语气", "- 积极乐观的态度"],
    ?_, by decide⟩
  have dfd : dictIndex cautionBundle.language_style "formal_degree" =
    .ok (1/2) := rfl
  have dem : dictIndex cautionBundle.language_style "emoji_frequency" =
    .ok 0 := rfl
  have dex : dictIndex cautionBundle.language_style "exclamation_frequency" =
    .ok 0 := rfl
  have dpos : dictIndex cautionBundle.emotional_style "positive_ratio" =
    .ok (7/10) := rfl
  have dneg : dictIndex cautionBundle.emotional_style "negative_ratio" =
    .ok (1/2) := rfl
  have drep : dictIndex cautionBundle.conversation_style "reply_ratio" =
    .ok 0 := rfl
  have dque : dictIndex cautionBundle.conversation_style "question_ratio" =
    .ok 0 := rfl
  simp only [stylePromptParts, dfd, dem, dex, dpos, dneg, drep, dque]
  norm_num

/-- C9 (amended): for every bundle carrying the seven consulted fields, the
directive list contains the emoji directive when emoji frequency is above 0.5,
the exclamation directive when exclamation frequency is above 0.3, the
optimism directive when positive ratio is above 0.6, the caution directive
when negative ratio is above 0.4 *and* the optimism condition failed (the
emotion pair is an if/elif, not independent), the responsiveness directive
when reply ratio is above 0.5, and the question directive when question ratio
is above 0.3. -/
theorem c9_amended_prompt_thresholds (style : StyleBundle)
    (fd emoji excl pos neg reply quest : ℚ)
    (hfd : pyLookup style.language_style "formal_degree" = some fd)
    (hem : pyLookup style.language_style "emoji_frequency" = some emoji)
    (hex : pyLookup style.language_style "exclamation_frequency" = some excl)
    (hpos : pyLookup style.emotional_style "positive_ratio" = some pos)
    (hneg : pyLookup style.emotional_style "negative_ratio" = some neg)
    (hrep : pyLookup style.conversation_style "reply_ratio" = some reply)
    (hque : pyLookup style.conversation_style "question_ratio" = some quest) :
    ∃ parts, stylePromptParts style = .ok parts ∧
      (1/2 < emoji → "- 适当使用表情符号" ∈ parts) ∧
      (3/10 < excl → "- 偶尔使用感叹号" ∈ parts) ∧
      (3/5 < pos → "- 积极乐观的态度" ∈ parts) ∧
      (pos ≤ 3/5 → 2/5 < neg → "- 较为谨慎的态度" ∈ parts) ∧
      (1/2 < reply → "- 注重回复他人的问题" ∈ parts) ∧
      (3/10 < quest → "- 适当提问引导对话" ∈ parts) := by
  refine ⟨["请模仿以下说话风格回复："]
      ++ [if 7/10 < fd then "- 正式礼貌的语气"
          else if fd < 3/10 then "- 随意轻松的语气" else "- 适中得体的语气"]
      ++ (if 1/2 < emoji then ["- 适当使用表情符号"] else [])
      ++ (if 3/10 < excl then ["- 偶尔使用感叹号"] else [])
      ++ (if 3/5 < pos then ["- 积极乐观的态度"]
          else if 2/5 < neg then ["- 较为谨慎的态度"] else [])
      ++ (if 1/2 < reply then ["- 注重回复他人的问题"] else [])
      ++ (if 3/10 < quest then ["- 适当提问引导对话"] else []),
    by simp only [stylePromptParts, dictIndex, hfd, hem, hex, hpos, hneg,
      hrep, hque], ?_, ?_, ?_, ?_, ?_, ?_⟩
  · intro h; rw [one_div] at h; simp [List.mem_append, h]
  · intro h; simp [List.mem_append, h]
  · intro h; simp [List.mem_append, h]
  · intro h1 h2
    have h1' : ¬ (3/5 < pos) := not_lt.mpr h1
    simp [List.mem_append, h1', h2]
  · intro h; rw [one_div] at h; simp [List.mem_append, h]
  · intro h; simp [List.mem_append, h]

/-- C9 witness: the amended theorem evaluated on `cautionBundle`, whose
negative ratio is above 0.4 while the optimism condition holds. -/
theorem c9_witness :
    ∃ parts, stylePromptParts cautionBundle = .ok parts ∧
      ((1:ℚ)/2 < 0 → "- 适当使用表情符号" ∈ parts) ∧
      ((3:ℚ)/10 < 0 → "- 偶尔使用感叹号" ∈ parts) ∧
      ((3:ℚ)/5 < 7/10 → "- 积极乐观的态度" ∈ parts) ∧
      ((7:ℚ)/10 ≤ 3/5 → (2:ℚ)/5 < 1/2 → "- 较为谨慎的态度" ∈ parts) ∧
      ((1:ℚ)/2 < 0 → "- 注重回复他人的问题" ∈ parts) ∧
      ((3:ℚ)/10 < 0 → "- 适当提问引导对话" ∈ parts) :=
  c9_amended_prompt_thresholds cautionBundle (1/2) 0 0 (7/10) (1/2) 0 0
    (by simp [cautionBundle, pyLookup_cons])
    (by simp [cautionBundle, pyLookup_cons])
    (by simp [cautionBundle, pyLookup_cons])
    (by simp [cautionBundle, pyLookup_cons])
    (by simp [cautionBundle, pyLookup_cons])
    (by simp [cautionBundle, pyLookup_cons])
    (by simp [cautionBundle, pyLookup_cons])

/-- Scheduler invariant: every session has at most one registered marker, and
never more running tasks than markers. -/
def SchedInv (st : SchedState) : Prop :=
  ∀ s : String, st.running.count s ≤ st.markers.count s ∧ st.markers.count s ≤ 1

/-- The scheduler invariant holds initially. -/
theorem schedInv_init : SchedInv initSched := by
  intro s; simp [initSched]

/-- Every atomic scheduler step preserves the invariant. -/
theorem schedStep_inv (st : SchedState) (e : SchedEvent) (h : SchedInv st) :
    SchedInv (schedStep st e) := by
  cases e with
  | trigger session_id ready =>
    by_cases hc : session_id ∈ st.markers
    · have hstep : schedStep st (.trigger session_id ready) = st := by
        simp [schedStep, hc]
      rw [hstep]; exact h
    · cases ready with
      | false =>
        have hstep : schedStep st (.trigger session_id false) = st := by
          simp [schedStep, hc]
        rw [hstep]; exact h
      | true =>
        have hstep : schedStep st (.trigger session_id true) =
            { markers := session_id :: st.markers,
              running := session_id :: st.running } := by
          simp [schedStep, hc]
        rw [hstep]
        intro s
        have hcount : st.markers.count session_id = 0 :=
          List.count_eq_zero.mpr hc
        by_cases hs : s = session_id
        · subst hs
          constructor
          · simp only [List.count_cons_self]
            exact Nat.add_le_add_right (h _).1 1
          · simp only [List.count_cons_self]
            omega
        · constructor
          · simpa [List.count_cons_of_ne hs] using (h s).1
          · simpa [List.count_cons_of_ne hs] using (h s).2
  | finish session_id success =>
    intro s
    have h1 := (h s).1
    have h2 := (h s).2
    constructor
    · simp only [schedStep, List.count_erase]
      omega
    · simp only [schedStep, List.count_erase]
      omega

/-- The invariant holds after any event trace from the initial state. -/
theorem schedInv_foldl (events : List SchedEvent) :
    SchedInv (events.foldl schedStep initSched) := by
  suffices h : ∀ (l : List SchedEvent) (st : SchedState), SchedInv st →
      SchedInv (l.foldl schedStep st) by
    exact h events initSched schedInv_init
  intro l
  induction l with
  | nil => intro st h; simpa using h
  | cons e es ih =>
    intro st h
    exact ih (schedStep st e) (schedStep_inv st e h)

/-- C6: single-flight per session. After any trace of atomic scheduler events
from the initial state, at most one analysis task is in flight for any given
session (a trigger while the session's marker is present is a no-op), and when
that session's task finishes — successfully or not — its marker (and its
running entry) are gone. -/
theorem c6_single_flight (events : List SchedEvent) (session_id : String) :
    (events.foldl schedStep initSched).running.count session_id ≤ 1 ∧
    (∀ success : Bool,
      session_id ∉ (schedStep (events.foldl schedStep initSched)
        (SchedEvent.finish session_id success)).markers ∧
      session_id ∉ (schedStep (events.foldl schedStep initSched)
        (SchedEvent.finish session_id success)).running) := by
  have hinv := schedInv_foldl events session_id
  have h1 := hinv.1
  have h2 := hinv.2
  have h3 := le_trans hinv.1 hinv.2
  refine ⟨h3, ?_⟩
  intro success
  constructor
  · rw [← List.count_eq_zero]
    simp only [schedStep, List.count_erase, beq_self_eq_true, if_true]
    omega
  · rw [← List.count_eq_zero]
    simp only [schedStep, List.count_erase, beq_self_eq_true, if_true]
    omega

/-- The shape every saved style bundle has: the three dimension dicts carry
exactly the analyzer's field names, in the analyzer's insertion order, with
arbitrary rational values. -/
def savedBundleShape (uidB : String) (t : Int) (sp : List ScenePattern)
    (v1 v2 v3 v4 v5 v6 w1 w2 w3 w4 x1 x2 x3 : ℚ) : StyleBundle :=
  { user_id := uidB,
    language_style :=
      [("formal_degree", v1), ("avg_message_length", v2),
       ("avg_sentence_length", v3), ("exclamation_frequency", v4),
       ("question_frequency", v5), ("emoji_frequency", v6)],
    emotional_style :=
      [("positive_ratio", w1), ("negative_ratio", w2),
       ("neutral_ratio", w3), ("emotion_expression_degree", w4)],
    conversation_style :=
      [("reply_ratio", x1), ("question_ratio", x2), ("statement_ratio", x3)],
    scene_patterns := sp,
    update_time := t }

/-- Saving any analyzer-shaped bundle and reloading it from the persisted rows
(empty in-memory cache) reproduces all three dimension dicts exactly: the
`<dimension-prefix>_<field>` naming convention is inverted by the prefix strip,
scene patterns are not persisted, and `update_time` is refreshed. -/
theorem roundtrip_general (user_id uidB : String) (t t2 : Int)
    (sp : List ScenePattern)
    (v1 v2 v3 v4 v5 v6 w1 w2 w3 w4 x1 x2 x3 : ℚ) :
    get_user_style []
      (save_style_features user_id
        (savedBundleShape uidB t sp v1 v2 v3 v4 v5 v6 w1 w2 w3 w4 x1 x2 x3))
      user_id t2 =
    some (savedBundleShape user_id t2 [] v1 v2 v3 v4 v5 v6 w1 w2 w3 w4 x1 x2 x3) := by
  simp +decide [get_user_style, save_style_features, assignFeatureRow,
    pyDictSet, pyLookup, pyStartsWith, pyStrip, strDropChars, savedBundleShape]

/-- C5: Feature Store round-trip. For every style bundle the Style Analyzer
produces on a non-empty batch, saving it for a user and reloading that user's
style with an empty in-memory cache (forcing reconstruction from the persisted
rows) yields identical values for every field of `language_style`,
`emotional_style` and `conversation_style` (scene patterns excluded). -/
theorem c5_style_roundtrip (user_id : String) (t t2 : Int)
    (messages : List Message) (h : messages ≠ []) (b : StyleBundle)
    (hb : analyze_style user_id t messages = some b) :
    ∃ b', get_user_style [] (save_style_features user_id b) user_id t2 = some b' ∧
      b'.language_style = b.language_style ∧
      b'.emotional_style = b.emotional_style ∧
      b'.conversation_style = b.conversation_style := by
  obtain ⟨m, ms, rfl⟩ := List.exists_cons_of_ne_nil h
  obtain ⟨v1, v2, v3, v4, v5, v6, w1, w2, w3, w4, x1, x2, x3, hb2⟩ :
      ∃ v1 v2 v3 v4 v5 v6 w1 w2 w3 w4 x1 x2 x3,
        b = savedBundleShape user_id t (extract_scene_patterns (m :: ms))
          v1 v2 v3 v4 v5 v6 w1 w2 w3 w4 x1 x2 x3 :=
    ⟨_, _, _, _, _, _, _, _, _, _, _, _, _, (Option.some.inj hb).symm⟩
  subst hb2
  exact ⟨_, roundtrip_general user_id user_id t t2
    (extract_scene_patterns (m :: ms)) v1 v2 v3 v4 v5 v6 w1 w2 w3 w4 x1 x2 x3,
    rfl, rfl, rfl⟩

/-- C5 witness: the round-trip theorem evaluated on a concrete singleton
batch. -/
theorem c5_witness :
    ∃ b, analyze_style "u" 0 [sampleMsg] = some b ∧
      ∃ b', get_user_style [] (save_style_features "u" b) "u" 7 = some b' ∧
        b'.language_style = b.language_style ∧
        b'.emotional_style = b.emotional_style ∧
        b'.conversation_style = b.conversation_style :=
  ⟨_, rfl, c5_style_roundtrip "u" 0 7 [sampleMsg] (by simp) _ rfl⟩

/-- The payload of a message whose `content` value is an integer, not text. -/
def badContentMsg : PyDict :=
  [("user_id", PyVal.vStr "u"), ("user_name", PyVal.vStr "n"),
   ("content", PyVal.vInt 5), ("send_time", PyVal.vInt 0),
   ("session_id", PyVal.vStr "s")]

/-- A well-formed text message payload. -/
def helloDict : PyDict :=
  [("user_id", PyVal.vStr "u1"), ("user_name", PyVal.vStr "n1"),
   ("content", PyVal.vStr "hello"), ("send_time", PyVal.vInt 0),
   ("session_id", PyVal.vStr "s1")]

/-- A second well-formed text message payload with different content. -/
def worldDict : PyDict :=
  [("user_id", PyVal.vStr "u1"), ("user_name", PyVal.vStr "n1"),
   ("content", PyVal.vStr "world"), ("send_time", PyVal.vInt 1),
   ("session_id", PyVal.vStr "s1")]

/-- C1 counterexample: a message with all five required fields present but a
non-string `content` makes `_filter_message`'s `content.strip()` raise
AttributeError, which `handle_message` does not catch — the exception reaches
the caller, contradicting "never raises". -/
theorem c1_counterexample :
    handle_message defaultFilterConfig 20 0 initState badContentMsg =
      .error PyError.attributeError := by rfl

/-- The filter never raises once the `content` value is a string. -/
theorem filter_message_ok (cfg : MessageFilterConfig) (message : PyDict)
    (s : String) (hc : pyLookup message "content" = some (PyVal.vStr s)) :
    ∃ b, filter_message cfg message = .ok b := by
  simp only [filter_message, hc]
  split_ifs <;> exact ⟨_, rfl⟩

/-- The dedup check never raises once the `content` value is a string and a
`session_id` field is present. -/
theorem is_duplicate_message_ok (cfg : MessageFilterConfig) (now : Int)
    (cache : List (String × CacheEntry)) (message : PyDict) (s : String)
    (hc : pyLookup message "content" = some (PyVal.vStr s))
    (hs : (pyLookup message "session_id").isSome) :
    ∃ r, is_duplicate_message cfg now cache message = .ok r := by
  obtain ⟨sv, hsv⟩ := Option.isSome_iff_exists.mp hs
  simp only [is_duplicate_message, hc, hsv]
  cases pyLookup (cache.filter (fun kv => now - kv.2.timestamp < 3600))
      (pyStr sv ++ ":" ++ md5hex s) with
  | none => exact ⟨_, rfl⟩
  | some e =>
    exact ⟨_, (apply_ite Except.ok
      (cfg.maxDuplicateCount < e.count + 1) _ _).symm⟩

/-- C1 (amended): `handle_message` never raises provided the message's
`content` value — when the field is present at all — is a string: a message
missing a required field is silently dropped with no state change, and every
other failure is absorbed internally. (A present, non-string `content` raises
AttributeError, per the counterexample.) -/
theorem c1_amended_never_raises (cfg : MessageFilterConfig) (batch_size : Nat)
    (now : Int) (st : PState) (message : PyDict)
    (hcontent : ∀ v, pyLookup message "content" = some v →
      ∃ s, v = PyVal.vStr s) :
    (∃ st', handle_message cfg batch_size now st message = .ok st') ∧
    (is_valid_message_format message = false →
      handle_message cfg batch_size now st message = .ok st) := by
  by_cases hv : is_valid_message_format message = false
  · have hok : handle_message cfg batch_size now st message = .ok st := by
      simp [handle_message, hv]
    exact ⟨⟨st, hok⟩, fun _ => hok⟩
  · have hv' : is_valid_message_format message = true := by
      cases hq : is_valid_message_format message
      · exact absurd hq hv
      · rfl
    refine ⟨?_, fun hcontra => absurd hcontra hv⟩
    have hpres : (pyLookup message "content").isSome := by
      simp only [is_valid_message_format, List.all_cons, List.all_nil,
        Bool.and_eq_true] at hv'
      exact hv'.2.2.1
    obtain ⟨v, hveq⟩ := Option.isSome_iff_exists.mp hpres
    obtain ⟨s, rfl⟩ := hcontent v hveq
    have hec : pyLookup (extract_message_metadata message) "content" =
        some (PyVal.vStr s) := by
      rw [show pyLookup (extract_message_metadata message) "content" =
        some (pyLookupD message "content" PyVal.vNone) from rfl]
      rw [pyLookupD, hveq]
      rfl
    have hes : (pyLookup (extract_message_metadata message) "session_id").isSome := by
      rw [show pyLookup (extract_message_metadata message) "session_id" =
        some (pyLookupD message "session_id" PyVal.vNone) from rfl]
      rfl
    obtain ⟨bf, hbf⟩ := filter_message_ok cfg (extract_message_metadata message) s hec
    obtain ⟨⟨dup, cache'⟩, hdup⟩ := is_duplicate_message_ok cfg now st.cache
      (extract_message_metadata message) s hec hes
    cases bf with
    | false =>
      exact ⟨st, by simp [handle_message, hv', hbf]⟩
    | true =>
      cases dup with
      | true =>
        exact ⟨{ st with cache := cache' },
          by simp [handle_message, hv', hbf, hdup]⟩
      | false =>
        exact ⟨trigger_learning batch_size
            (save_message { st with cache := cache' }
              (extract_message_metadata message))
            (extract_message_metadata message),
          by simp [handle_message, hv', hbf, hdup]⟩

/-- C1 witness: the amended theorem evaluated on a concrete well-formed
message. -/
theorem c1_witness :
    ∃ st', handle_message defaultFilterConfig 20 0 initState helloDict =
      .ok st' :=
  (c1_amended_never_raises defaultFilterConfig 20 0 initState helloDict
    (fun v hv => ⟨"hello", by
      have h2 : (some (PyVal.vStr "hello") : Option PyVal) = some v := hv
      exact (Option.some.inj h2).symm⟩)).1

/-- Replacing the value stored under key `k` leaves lookups of other keys
unchanged. -/
theorem pyLookup_map_replace_ne {α : Type} (l : List (String × α))
    (k k' : String) (v : α) (h : ¬ k' = k) :
    pyLookup (l.map (fun p => if p.1 == k then (k, v) else p)) k' =
      pyLookup l k' := by
  induction l with
  | nil => rfl
  | cons p ps ih =>
    have hk : (k == k') = false := by
      simp only [beq_eq_false_iff_ne, ne_eq]
      exact fun hh => h hh.symm
    by_cases hp : p.1 == k
    · have hpk : p.1 = k := by simpa using hp
      simp only [List.map_cons, hp, if_true]
      rw [pyLookup_cons, pyLookup_cons, hpk, hk]
      simp only [Bool.false_eq_true, if_false]
      exact ih
    · simp only [List.map_cons, hp, if_false, Bool.false_eq_true]
      rw [pyLookup_cons, pyLookup_cons]
      by_cases hq : p.1 == k'
      · simp [hq]
      · simp only [hq, Bool.false_eq_true, if_false]
        exact ih

/-- Looking up a key right after upserting it yields the new value. -/
theorem pyLookup_pyDictSet_self {α : Type} (l : List (String × α))
    (k : String) (v : α) :
    pyLookup (pyDictSet l k v) k = some v := by
  induction l with
  | nil => simp [pyDictSet, pyLookup_cons]
  | cons p ps ih =>
    by_cases hp : p.1 == k
    · have hany : ((p :: ps).any (fun q => q.1 == k)) = true := by
        simp [List.any_cons, hp]
      simp only [pyDictSet, hany, if_true, List.map_cons, hp]
      rw [pyLookup_cons]
      simp
    · cases hany : ps.any (fun q => q.1 == k) with
      | true =>
        have hall : ((p :: ps).any (fun q => q.1 == k)) = true := by
          simp [List.any_cons, hany]
        simp only [pyDictSet, hall, if_true, List.map_cons, hp,
          Bool.false_eq_true, if_false]
        rw [pyLookup_cons]
        simp only [hp, Bool.false_eq_true, if_false]
        simpa only [pyDictSet, hany, if_true] using ih
      | false =>
        have hall : ((p :: ps).any (fun q => q.1 == k)) = false := by
          simp [List.any_cons, hp, hany]
        simp only [pyDictSet, hall, Bool.false_eq_true, if_false,
          List.cons_append]
        rw [pyLookup_cons]
        simp only [hp, Bool.false_eq_true, if_false]
        simpa only [pyDictSet, hany, Bool.false_eq_true, if_false] using ih

/-- Upserting one key leaves lookups of all other keys unchanged. -/
theorem pyLookup_pyDictSet_ne {α : Type} (l : List (String × α))
    (k k' : String) (v : α) (h : ¬ k' = k) :
    pyLookup (pyDictSet l k v) k' = pyLookup l k' := by
  by_cases hany : l.any (fun q => q.1 == k)
  · simp only [pyDictSet, hany, if_true]
    exact pyLookup_map_replace_ne l k k' v h
  · simp only [pyDictSet, hany, Bool.false_eq_true, if_false]
    induction l with
    | nil =>
      have hk : (k == k') = false := by
        simp only [beq_eq_false_iff_ne, ne_eq]
        exact fun hh => h hh.symm
      rw [List.nil_append, pyLookup_cons, hk]
      simp
    | cons p ps ih =>
      rw [List.cons_append, pyLookup_cons, pyLookup_cons]
      by_cases hq : p.1 == k'
      · simp [hq]
      · simp only [hq, Bool.false_eq_true, if_false]
        exact ih (by
          intro habs
          exact hany (by simp [List.any_cons, habs]))

/-- Triggering learning only ever touches the marker registry. -/
theorem trigger_learning_stats (batch_size : Nat) (st : PState)
    (message : PyDict) :
    (trigger_learning batch_size st message).stats = st.stats := by
  simp only [trigger_learning]
  split_ifs <;> rfl

/-- Triggering learning preserves the stored messages. -/
theorem trigger_learning_messages (batch_size : Nat) (st : PState)
    (message : PyDict) :
    (trigger_learning batch_size st message).messages = st.messages := by
  simp only [trigger_learning]
  split_ifs <;> rfl

/-- The state after ingesting two distinct valid messages from a fresh start. -/
def twoStepState : PState :=
  match handle_message defaultFilterConfig 20 0 initState helloDict with
  | .ok st1 =>
    match handle_message defaultFilterConfig 20 0 st1 worldDict with
    | .ok st2 => st2
    | .error _ => st1
  | .error _ => initState

/-- C2 counterexample: after two accepted-and-stored messages the stored
`total_messages` metric is the text "1", not "2" — `_save_message` passes 1 to
an upsert that replaces the value, so the counter never advances. -/
theorem c2_counterexample :
    twoStepState.messages.length = 2 ∧
    pyLookup twoStepState.stats "total_messages" = some "1" ∧
    ¬ pyLookup twoStepState.stats "total_messages" = some "2" := by
  refine ⟨by decide, by decide, by decide⟩

/-- C2 (amended): whenever `handle_message` stores a message (the stored-row
count grew), the `total_messages` and `valid_messages` metrics are upserted to
the constant text "1" (`str(1)`) — a set, not an increment — so the stored
value is "1" no matter how many messages have been stored. -/
theorem c2_amended_stats_set_to_one (cfg : MessageFilterConfig)
    (batch_size : Nat) (now : Int) (st st' : PState) (message : PyDict)
    (hok : handle_message cfg batch_size now st message = .ok st')
    (hgrow : st.messages.length < st'.messages.length) :
    pyLookup st'.stats "total_messages" = some "1" ∧
    pyLookup st'.stats "valid_messages" = some "1" := by
  by_cases hv : is_valid_message_format message = false
  · simp only [handle_message, hv, if_true] at hok
    obtain rfl := Except.ok.inj hok
    exact absurd hgrow (lt_irrefl _)
  · have hv' : is_valid_message_format message = true := by
      cases hq : is_valid_message_format message
      · exact absurd hq hv
      · rfl
    rw [handle_message] at hok
    simp only [hv', Bool.true_eq_false, if_false] at hok
    cases hf : filter_message cfg (extract_message_metadata message) with
    | error e => rw [hf] at hok; exact absurd hok (by simp)
    | ok b =>
      rw [hf] at hok
      cases b with
      | false =>
        obtain rfl := Except.ok.inj hok
        exact absurd hgrow (lt_irrefl _)
      | true =>
        cases hd : is_duplicate_message cfg now st.cache
            (extract_message_metadata message) with
        | error e => rw [hd] at hok; exact absurd hok (by simp)
        | ok r =>
          rw [hd] at hok
          obtain ⟨dup, cache'⟩ := r
          cases dup with
          | true =>
            obtain rfl := Except.ok.inj hok
            exact absurd hgrow (lt_irrefl _)
          | false =>
            obtain rfl := Except.ok.inj hok
            rw [trigger_learning_stats]
            simp only [save_message, update_statistic]
            constructor
            · rw [pyLookup_pyDictSet_ne _ _ _ _ (by decide)]
              exact pyLookup_pyDictSet_self _ _ _
            · exact pyLookup_pyDictSet_self _ _ _

/-- The state after ingesting one valid message from a fresh start. -/
def oneStepState : PState :=
  match handle_message defaultFilterConfig 20 0 initState helloDict with
  | .ok st1 => st1
  | .error _ => initState

/-- C2 witness: the amended theorem evaluated after one concrete stored
message. -/
theorem c2_witness :
    pyLookup oneStepState.stats "total_messages" = some "1" ∧
    pyLookup oneStepState.stats "valid_messages" = some "1" :=
  c2_amended_stats_set_to_one defaultFilterConfig 20 0 initState oneStepState
    helloDict (by rfl) (by decide)

/-- Repeatedly feed the same message to `handle_message`, threading the state
(an error leaves the state unchanged, as the exception aborts that call). -/
def sendSame (cfg : MessageFilterConfig) (batch_size : Nat) (now : Int)
    (message : PyDict) : Nat → PState → PState
  | 0, st => st
  | n + 1, st =>
    match handle_message cfg batch_size now st message with
    | .ok st' => sendSame cfg batch_size now message n st'
    | .error _ => st

/-- Extraction preserves a string `content` value. -/
theorem md_content (message : PyDict) (c : String)
    (hc : pyLookup message "content" = some (PyVal.vStr c)) :
    pyLookup (extract_message_metadata message) "content" =
      some (PyVal.vStr c) := by
  rw [show pyLookup (extract_message_metadata message) "content" =
    some (pyLookupD message "content" PyVal.vNone) from rfl, pyLookupD, hc]
  rfl

/-- Extraction exposes the `session_id` value (defaulting to `None`). -/
theorem md_session (message : PyDict) :
    pyLookup (extract_message_metadata message) "session_id" =
      some (pyLookupD message "session_id" PyVal.vNone) := rfl

/-- The dedup cache key used for a message with string content `c`. -/
def dedupKey (message : PyDict) (c : String) : String :=
  pyStr (pyLookupD message "session_id" PyVal.vNone) ++ ":" ++ md5hex c

/-- Dedup check on an empty cache: the message is fresh; an entry with count 1
is inserted and the message is allowed through. -/
theorem is_duplicate_fresh (cfg : MessageFilterConfig) (now : Int)
    (message : PyDict) (c : String)
    (hc : pyLookup message "content" = some (PyVal.vStr c)) :
    is_duplicate_message cfg now [] (extract_message_metadata message) =
      .ok (false, [(dedupKey message c, { timestamp := now, count := 1 })]) := by
  simp only [is_duplicate_message, md_content message c hc, md_session]
  rfl

/-- Dedup check against the single existing entry for the same key: the
counter advances from `k` to `k+1` and the verdict is exactly whether `k+1`
exceeds the configured maximum. -/
theorem is_duplicate_repeat (cfg : MessageFilterConfig) (now : Int)
    (message : PyDict) (c : String) (k : Nat)
    (hc : pyLookup message "content" = some (PyVal.vStr c)) :
    is_duplicate_message cfg now
        [(dedupKey message c, { timestamp := now, count := k })]
        (extract_message_metadata message) =
      .ok (decide (cfg.maxDuplicateCount < k + 1),
        [(dedupKey message c, { timestamp := now, count := k + 1 })]) := by
  simp only [is_duplicate_message, md_content message c hc, md_session]
  have hkeep : (List.filter (fun kv => decide (now - kv.2.timestamp < 3600))
      [(dedupKey message c, ({ timestamp := now, count := k } : CacheEntry))]) =
      [(dedupKey message c, { timestamp := now, count := k })] := by
    simp
  rw [show (pyStr (pyLookupD message "session_id" PyVal.vNone) ++ ":" ++
    md5hex c) = dedupKey message c from rfl]
  rw [hkeep]
  rw [show pyLookup [(dedupKey message c,
      ({ timestamp := now, count := k } : CacheEntry))] (dedupKey message c) =
    some { timestamp := now, count := k } by
      rw [pyLookup_cons]; simp]
  have hset : pyDictSet
      [(dedupKey message c, ({ timestamp := now, count := k } : CacheEntry))]
      (dedupKey message c) { timestamp := now, count := k + 1 } =
      [(dedupKey message c, { timestamp := now, count := k + 1 })] := by
    simp [pyDictSet]
  by_cases h : cfg.maxDuplicateCount < k + 1 <;> simp [h, hset]

/-- Triggering learning preserves the dedup cache. -/
theorem trigger_learning_cache (batch_size : Nat) (st : PState)
    (message : PyDict) :
    (trigger_learning batch_size st message).cache = st.cache := by
  simp only [trigger_learning]
  split_ifs <;> rfl

/-- Counting a predicate every replica satisfies counts all replicas. -/
theorem countP_replicate_of_true {α : Type} (p : α → Bool) (k : Nat) (a : α)
    (h : p a = true) : (List.replicate k a).countP p = k := by
  induction k with
  | zero => rfl
  | succ k ih => simp [List.replicate_succ, List.countP_cons, h, ih]

/-- The stored messages after `_save_message` are the old rows plus the new
one. -/
theorem save_message_messages (st : PState) (message : PyDict) :
    (save_message st message).messages = st.messages ++ [message] := rfl

/-- The dedup cache after `_save_message` is unchanged. -/
theorem save_message_cache (st : PState) (message : PyDict) :
    (save_message st message).cache = st.cache := rfl

/-- One ingestion step on the single-entry invariant shape: the dedup counter
advances from `k` to `k+1`, and the stored rows grow exactly while the counter
stays within the configured maximum. -/
theorem handle_step (cfg : MessageFilterConfig) (batch_size : Nat) (now : Int)
    (message : PyDict) (c : String)
    (hmax : 1 ≤ cfg.maxDuplicateCount)
    (hvalid : is_valid_message_format message = true)
    (hc : pyLookup message "content" = some (PyVal.vStr c))
    (hf : filter_message cfg (extract_message_metadata message) = .ok true)
    (k : Nat) (st : PState)
    (hcache : st.cache = (if k = 0 then [] else
      [(dedupKey message c, { timestamp := now, count := k })]))
    (hmsgs : st.messages = List.replicate (min k cfg.maxDuplicateCount)
      (extract_message_metadata message)) :
    ∃ st', handle_message cfg batch_size now st message = .ok st' ∧
      st'.cache = [(dedupKey message c, { timestamp := now, count := k + 1 })] ∧
      st'.messages = List.replicate (min (k + 1) cfg.maxDuplicateCount)
        (extract_message_metadata message) := by
  cases k with
  | zero =>
    simp only [if_pos rfl] at hcache
    simp only [Nat.zero_min, List.replicate_zero] at hmsgs
    have hdup : is_duplicate_message cfg now st.cache
        (extract_message_metadata message) =
        .ok (false, [(dedupKey message c, { timestamp := now, count := 1 })]) := by
      rw [hcache]
      exact is_duplicate_fresh cfg now message c hc
    refine ⟨trigger_learning batch_size
      (save_message { st with cache :=
        [(dedupKey message c, { timestamp := now, count := 1 })] }
        (extract_message_metadata message))
      (extract_message_metadata message), ?_, ?_, ?_⟩
    · simp only [handle_message, hvalid, Bool.true_eq_false, if_false, hf, hdup]
    · rw [trigger_learning_cache, save_message_cache]
    · rw [trigger_learning_messages, save_message_messages]
      simp only [hmsgs]
      have h1 : min 1 cfg.maxDuplicateCount = 1 := by omega
      simp [h1]
  | succ k =>
    simp only [Nat.succ_ne_zero, if_false] at hcache
    by_cases hlt : cfg.maxDuplicateCount < k + 1 + 1
    · have hdup : is_duplicate_message cfg now st.cache
          (extract_message_metadata message) =
          .ok (true,
            [(dedupKey message c, { timestamp := now, count := k + 1 + 1 })]) := by
        rw [hcache]
        have h2 := is_duplicate_repeat cfg now message c (k + 1) hc
        rwa [decide_eq_true hlt] at h2
      refine ⟨{ st with cache :=
        [(dedupKey message c, { timestamp := now, count := k + 1 + 1 })] },
        ?_, rfl, ?_⟩
      · simp only [handle_message, hvalid, Bool.true_eq_false, if_false, hf, hdup]
      · simp only [hmsgs]
        have h1 : min (k + 1) cfg.maxDuplicateCount =
            min (k + 1 + 1) cfg.maxDuplicateCount := by omega
        rw [h1]
    · have hdup : is_duplicate_message cfg now st.cache
          (extract_message_metadata message) =
          .ok (false,
            [(dedupKey message c, { timestamp := now, count := k + 1 + 1 })]) := by
        rw [hcache]
        have h2 := is_duplicate_repeat cfg now message c (k + 1) hc
        rwa [decide_eq_false hlt] at h2
      refine ⟨trigger_learning batch_size
        (save_message { st with cache :=
          [(dedupKey message c, { timestamp := now, count := k + 1 + 1 })] }
          (extract_message_metadata message))
        (extract_message_metadata message), ?_, ?_, ?_⟩
      · simp only [handle_message, hvalid, Bool.true_eq_false, if_false, hf, hdup]
      · rw [trigger_learning_cache, save_message_cache]
      · rw [trigger_learning_messages, save_message_messages]
        simp only [hmsgs]
        have h1 : min (k + 1) cfg.maxDuplicateCount = k + 1 := by omega
        have h2 : min (k + 1 + 1) cfg.maxDuplicateCount = k + 1 + 1 := by omega
        rw [h1, h2, ← List.replicate_succ']

/-- Unfolding the repeated sender from the back: `k+1` sends are `k` sends
followed by one more. -/
theorem sendSame_succ (cfg : MessageFilterConfig) (batch_size : Nat)
    (now : Int) (message : PyDict) (k : Nat) (st : PState) :
    sendSame cfg batch_size now message (k + 1) st =
      (match handle_message cfg batch_size now
          (sendSame cfg batch_size now message k st) message with
      | .ok st' => st'
      | .error _ => sendSame cfg batch_size now message k st) := by
  induction k generalizing st with
  | zero =>
    cases hh : handle_message cfg batch_size now st message with
    | ok s => simp only [sendSame, hh]
    | error e => simp only [sendSame, hh]
  | succ k ih =>
    cases hh : handle_message cfg batch_size now st message with
    | ok s =>
      have hL : sendSame cfg batch_size now message (k + 1 + 1) st =
          sendSame cfg batch_size now message (k + 1) s := by
        simp only [sendSame, hh]
      have hR : sendSame cfg batch_size now message (k + 1) st =
          sendSame cfg batch_size now message k s := by
        simp only [sendSame, hh]
      rw [hL, ih s, hR]
    | error e =>
      have hL : sendSame cfg batch_size now message (k + 1 + 1) st = st := by
        simp only [sendSame, hh]
      have hR : sendSame cfg batch_size now message (k + 1) st = st := by
        simp only [sendSame, hh]
      rw [hL, hR, hh]

/-- Invariant of repeated identical sends from a fresh state: after `k` sends
the dedup cache holds exactly one entry for the message's key with occurrence
count `k`, and exactly `min k max_duplicate_count` rows are stored. -/
theorem sendSame_shape (cfg : MessageFilterConfig) (batch_size : Nat)
    (now : Int) (message : PyDict) (c : String)
    (hmax : 1 ≤ cfg.maxDuplicateCount)
    (hvalid : is_valid_message_format message = true)
    (hc : pyLookup message "content" = some (PyVal.vStr c))
    (hf : filter_message cfg (extract_message_metadata message) = .ok true) :
    ∀ k : Nat,
      (sendSame cfg batch_size now message k initState).cache =
        (if k = 0 then [] else
          [(dedupKey message c, { timestamp := now, count := k })]) ∧
      (sendSame cfg batch_size now message k initState).messages =
        List.replicate (min k cfg.maxDuplicateCount)
          (extract_message_metadata message) := by
  intro k
  induction k with
  | zero => exact ⟨rfl, by simp [sendSame, initState]⟩
  | succ k ih =>
    obtain ⟨st', hok, hc', hm'⟩ := handle_step cfg batch_size now message c
      hmax hvalid hc hf k (sendSame cfg batch_size now message k initState)
      ih.1 ih.2
    rw [sendSame_succ, hok]
    exact ⟨by simpa using hc', hm'⟩

/-- C4: duplicate suppression bounds storage. Starting from a fresh state,
sending the same gate-passing message `n > max_duplicate_count` times at one
instant (all within the one-hour window, storage succeeding) stores exactly
`max_duplicate_count` rows with that content, and the single cache entry's
occurrence counter has been incremented to `n` — each repeat was rejected
exactly when the counter exceeded the maximum. -/
theorem c4_dedup_bounds_stored_rows (cfg : MessageFilterConfig)
    (batch_size : Nat) (now : Int) (message : PyDict) (c : String)
    (hmax : 1 ≤ cfg.maxDuplicateCount)
    (hvalid : is_valid_message_format message = true)
    (hc : pyLookup message "content" = some (PyVal.vStr c))
    (hf : filter_message cfg (extract_message_metadata message) = .ok true)
    (n : Nat) (hn : cfg.maxDuplicateCount < n) :
    ((sendSame cfg batch_size now message n initState).messages.countP
        (fun row => pyLookup row "content" == some (PyVal.vStr c))) =
      cfg.maxDuplicateCount ∧
    pyLookup (sendSame cfg batch_size now message n initState).cache
        (dedupKey message c) = some { timestamp := now, count := n } := by
  obtain ⟨hcache, hmsgs⟩ := sendSame_shape cfg batch_size now message c
    hmax hvalid hc hf n
  constructor
  · rw [hmsgs]
    rw [countP_replicate_of_true _ _ _ (by simp [md_content message c hc])]
    omega
  · rw [hcache, if_neg (by omega), pyLookup_cons]
    simp

/-- C4 witness: the theorem evaluated on a concrete message sent four times
against the default configuration (maximum three duplicates). -/
theorem c4_witness :
    ((sendSame defaultFilterConfig 20 0 helloDict 4 initState).messages.countP
        (fun row => pyLookup row "content" == some (PyVal.vStr "hello"))) = 3 ∧
    pyLookup (sendSame defaultFilterConfig 20 0 helloDict 4 initState).cache
        (dedupKey helloDict "hello") = some { timestamp := 0, count := 4 } :=
  c4_dedup_bounds_stored_rows defaultFilterConfig 20 0 helloDict "hello"
    (by decide) (by decide) (by decide) (by rfl) 4 (by decide)

/-- The guarded import body counts each processed line in exactly one of the
imported/filtered/duplicate buckets; the error counter and the total never
move (its error branches are unreachable once the content is a string). -/
theorem import_process_line_tally (cfg : MessageFilterConfig) (now : Int)
    (user_id user_name session_id : String) (timestamp : Int) (line : String)
    (st : PState) (t : ImportTally) :
    (import_process_line cfg now user_id user_name session_id timestamp line
        st t).2.imported_lines +
      (import_process_line cfg now user_id user_name session_id timestamp line
        st t).2.filtered_lines +
      (import_process_line cfg now user_id user_name session_id timestamp line
        st t).2.duplicate_lines =
      t.imported_lines + t.filtered_lines + t.duplicate_lines + 1 ∧
    (import_process_line cfg now user_id user_name session_id timestamp line
        st t).2.error_lines = t.error_lines ∧
    (import_process_line cfg now user_id user_name session_id timestamp line
        st t).2.total_lines = t.total_lines := by
  have hvf : is_valid_message_format
      [("user_id", PyVal.vStr user_id),
       ("user_name", PyVal.vStr user_name),
       ("content", PyVal.vStr line),
       ("send_time", PyVal.vInt timestamp),
       ("session_id", PyVal.vStr session_id),
       ("is_group", PyVal.vBool false),
       ("reply_to", PyVal.vNone)] = true := rfl
  have hcl : pyLookup
      [("user_id", PyVal.vStr user_id),
       ("user_name", PyVal.vStr user_name),
       ("content", PyVal.vStr line),
       ("send_time", PyVal.vInt timestamp),
       ("session_id", PyVal.vStr session_id),
       ("is_group", PyVal.vBool false),
       ("reply_to", PyVal.vNone)] "content" = some (PyVal.vStr line) := rfl
  cases hfm : filter_message cfg (extract_message_metadata
      [("user_id", PyVal.vStr user_id),
       ("user_name", PyVal.vStr user_name),
       ("content", PyVal.vStr line),
       ("send_time", PyVal.vInt timestamp),
       ("session_id", PyVal.vStr session_id),
       ("is_group", PyVal.vBool false),
       ("reply_to", PyVal.vNone)]) with
  | error e =>
    obtain ⟨b, hb⟩ := filter_message_ok cfg _ line (md_content _ line hcl)
    rw [hfm] at hb
    exact absurd hb (by simp)
  | ok b =>
    cases b with
    | false =>
      simp only [import_process_line, hvf, Bool.true_eq_false, if_false, hfm]
      exact ⟨by omega, trivial, trivial⟩
    | true =>
      by_cases hdup : (pyLookup st.cache
          ("import:" ++ session_id ++ ":" ++ md5hex line)).isSome
      · simp only [import_process_line, hvf, Bool.true_eq_false, if_false,
          hfm, hdup, if_true]
        exact ⟨by omega, trivial, trivial⟩
      · simp only [import_process_line, hvf, Bool.true_eq_false, if_false,
          hfm, hdup, Bool.false_eq_true]
        exact ⟨by omega, trivial, trivial⟩

/-- One loop iteration on a non-blank line: an abort leaves the tally
untouched; otherwise exactly one of the imported/filtered/duplicate counters
advances, and the error and total counters never move. -/
theorem import_line_step_tally (cfg : MessageFilterConfig) (now : Int)
    (user_id user_name session_id : String) (nLines i : Nat)
    (st : PState) (t : ImportTally) (rawLine : String)
    (hblank : pyStrip rawLine ≠ "") :
    ((import_line_step cfg now user_id user_name session_id nLines i st t
        rawLine).2.2 = true →
      (import_line_step cfg now user_id user_name session_id nLines i st t
        rawLine).2.1 = t) ∧
    ((import_line_step cfg now user_id user_name session_id nLines i st t
        rawLine).2.2 = false →
      (import_line_step cfg now user_id user_name session_id nLines i st t
          rawLine).2.1.imported_lines +
        (import_line_step cfg now user_id user_name session_id nLines i st t
          rawLine).2.1.filtered_lines +
        (import_line_step cfg now user_id user_name session_id nLines i st t
          rawLine).2.1.duplicate_lines =
        t.imported_lines + t.filtered_lines + t.duplicate_lines + 1 ∧
      (import_line_step cfg now user_id user_name session_id nLines i st t
        rawLine).2.1.error_lines = t.error_lines ∧
      (import_line_step cfg now user_id user_name session_id nLines i st t
        rawLine).2.1.total_lines = t.total_lines) := by
  have hne : (pyStrip rawLine).toList.isEmpty = false := by
    cases he : (pyStrip rawLine).toList.isEmpty
    · rfl
    · exfalso
      apply hblank
      have hl : (pyStrip rawLine).toList = [] := by
        simpa [List.isEmpty_iff] using he
      cases hs : pyStrip rawLine with
      | mk data =>
        rw [hs] at hl
        simp only [String.toList] at hl
        rw [hl]
  cases hts : match_timestamp (pyStrip rawLine) with
  | some parts =>
    cases hsv : strptimeValid parts
    · have hstep : import_line_step cfg now user_id user_name session_id
          nLines i st t rawLine = (st, t, true) := by
        simp only [import_line_step, hne, Bool.false_eq_true, if_false, hts,
          hsv]
      rw [hstep]
      exact ⟨fun _ => rfl, fun hab => absurd hab (by simp)⟩
    · have hp := import_process_line_tally cfg now user_id user_name
        session_id (tsToUnix parts) (pyStrip rawLine) st t
      have hstep : import_line_step cfg now user_id user_name session_id
          nLines i st t rawLine =
          ((import_process_line cfg now user_id user_name session_id
              (tsToUnix parts) (pyStrip rawLine) st t).1,
           (import_process_line cfg now user_id user_name session_id
              (tsToUnix parts) (pyStrip rawLine) st t).2, false) := by
        simp only [import_line_step, hne, Bool.false_eq_true, if_false, hts,
          hsv, if_true]
      rw [hstep]
      exact ⟨fun hab => absurd hab (by simp), fun _ => hp⟩
  | none =>
    have hp := import_process_line_tally cfg now user_id user_name
      session_id (now - ((nLines : Int) - (i : Int)) * 60) (pyStrip rawLine)
      st t
    have hstep : import_line_step cfg now user_id user_name session_id
        nLines i st t rawLine =
        ((import_process_line cfg now user_id user_name session_id
            (now - ((nLines : Int) - (i : Int)) * 60) (pyStrip rawLine) st t).1,
         (import_process_line cfg now user_id user_name session_id
            (now - ((nLines : Int) - (i : Int)) * 60) (pyStrip rawLine) st t).2,
         false) := by
      simp only [import_line_step, hne, Bool.false_eq_true, if_false, hts]
    rw [hstep]
    exact ⟨fun hab => absurd hab (by simp), fun _ => hp⟩

/-- Loop invariant of the importer over blank-free lines: the total and error
counters never move; without an abort the imported/filtered/duplicate sum
advances by exactly the number of lines, and with an abort by at most that. -/
theorem import_loop_tally (cfg : MessageFilterConfig) (now : Int)
    (user_id user_name session_id : String) (nLines : Nat) :
    ∀ (lines : List String) (i : Nat) (st : PState) (t : ImportTally),
      (∀ l ∈ lines, pyStrip l ≠ "") →
      (import_loop cfg now user_id user_name session_id nLines lines i st
          t).2.1.total_lines = t.total_lines ∧
      (import_loop cfg now user_id user_name session_id nLines lines i st
          t).2.1.error_lines = t.error_lines ∧
      ((import_loop cfg now user_id user_name session_id nLines lines i st
          t).2.2 = false →
        (import_loop cfg now user_id user_name session_id nLines lines i st
            t).2.1.imported_lines +
          (import_loop cfg now user_id user_name session_id nLines lines i st
            t).2.1.filtered_lines +
          (import_loop cfg now user_id user_name session_id nLines lines i st
            t).2.1.duplicate_lines =
          t.imported_lines + t.filtered_lines + t.duplicate_lines +
            lines.length) ∧
      ((import_loop cfg now user_id user_name session_id nLines lines i st
          t).2.2 = true →
        (import_loop cfg now user_id user_name session_id nLines lines i st
            t).2.1.imported_lines +
          (import_loop cfg now user_id user_name session_id nLines lines i st
            t).2.1.filtered_lines +
          (import_loop cfg now user_id user_name session_id nLines lines i st
            t).2.1.duplicate_lines ≤
          t.imported_lines + t.filtered_lines + t.duplicate_lines +
            lines.length) := by
  intro lines
  induction lines with
  | nil =>
    intro i st t hblank
    exact ⟨rfl, rfl, fun _ => by simp [import_loop], fun hab => absurd hab (by simp [import_loop])⟩
  | cons l ls ih =>
    intro i st t hblank
    have hstepfacts := import_line_step_tally cfg now user_id user_name
      session_id nLines i st t l (hblank l (by simp))
    rcases hstep : import_line_step cfg now user_id user_name session_id
        nLines i st t l with ⟨st1, t1, ab⟩
    rw [hstep] at hstepfacts
    cases ab with
    | true =>
      have ht1 : t1 = t := hstepfacts.1 rfl
      have hloop : import_loop cfg now user_id user_name session_id nLines
          (l :: ls) i st t = (st1, t1, true) := by
        simp only [import_loop, hstep]
      rw [hloop]
      refine ⟨by rw [ht1], by rw [ht1], fun hab => absurd hab (by simp),
        fun _ => ?_⟩
      have h2 : (st1, t1, true).2.1 = t := ht1
      rw [h2]
      simp only [List.length_cons]
      omega
    | false =>
      have hsum1 : t1.imported_lines + t1.filtered_lines +
          t1.duplicate_lines =
          t.imported_lines + t.filtered_lines + t.duplicate_lines + 1 :=
        (hstepfacts.2 rfl).1
      have herr1 : t1.error_lines = t.error_lines := (hstepfacts.2 rfl).2.1
      have htot1 : t1.total_lines = t.total_lines := (hstepfacts.2 rfl).2.2
      have hloop : import_loop cfg now user_id user_name session_id nLines
          (l :: ls) i st t =
          import_loop cfg now user_id user_name session_id nLines ls (i + 1)
            st1 t1 := by
        simp only [import_loop, hstep]
      rw [hloop]
      have hihs := ih (i + 1) st1 t1 (fun x hx => hblank x (by simp [hx]))
      obtain ⟨htot, herr, hok, hab⟩ := hihs
      refine ⟨by rw [htot, htot1], by rw [herr, herr1], ?_, ?_⟩
      · intro hflag
        have := hok hflag
        simp only [List.length_cons]
        omega
      · intro hflag
        have := hab hflag
        simp only [List.length_cons]
        omega

/-- C3 counterexample: a transcript consisting of one blank line. The line is
read successfully but skipped before any counter is touched, so
`total_lines = 1` while the four outcome counters sum to 0. -/
theorem c3_counterexample :
    (import_chat_history defaultFilterConfig 1000000 initState "u" "n" "imp"
        ["\n"]).2.total_lines = 1 ∧
    (import_chat_history defaultFilterConfig 1000000 initState "u" "n" "imp"
        ["\n"]).2.imported_lines +
      (import_chat_history defaultFilterConfig 1000000 initState "u" "n" "imp"
        ["\n"]).2.filtered_lines +
      (import_chat_history defaultFilterConfig 1000000 initState "u" "n" "imp"
        ["\n"]).2.duplicate_lines +
      (import_chat_history defaultFilterConfig 1000000 initState "u" "n" "imp"
        ["\n"]).2.error_lines = 0 := by
  exact ⟨by decide, by decide⟩

/-- C3 (amended): for every successfully read transcript with no
whitespace-only lines, the importer's tally partitions the file:
`imported + filtered + duplicate + error = total_lines`, and `total_lines` is
the number of lines read. (A whitespace-only line is skipped before any
counter is touched, which is the one way the identity can fail.) -/
theorem c3_amended_tally_partition (cfg : MessageFilterConfig) (now : Int)
    (st : PState) (user_id user_name session_id : String)
    (lines : List String)
    (hblank : ∀ l ∈ lines, pyStrip l ≠ "") :
    (import_chat_history cfg now st user_id user_name session_id
        lines).2.imported_lines +
      (import_chat_history cfg now st user_id user_name session_id
        lines).2.filtered_lines +
      (import_chat_history cfg now st user_id user_name session_id
        lines).2.duplicate_lines +
      (import_chat_history cfg now st user_id user_name session_id
        lines).2.error_lines =
      (import_chat_history cfg now st user_id user_name session_id
        lines).2.total_lines ∧
    (import_chat_history cfg now st user_id user_name session_id
        lines).2.total_lines = lines.length := by
  have hl := import_loop_tally cfg now user_id user_name session_id
    lines.length lines 0 st
    { total_lines := lines.length, imported_lines := 0, filtered_lines := 0,
      duplicate_lines := 0, error_lines := 0 } hblank
  rcases hloop : import_loop cfg now user_id user_name session_id
      lines.length lines 0 st
      { total_lines := lines.length, imported_lines := 0, filtered_lines := 0,
        duplicate_lines := 0, error_lines := 0 } with ⟨st', t, ab⟩
  rw [hloop] at hl
  have htot : t.total_lines = lines.length := hl.1
  have herr : t.error_lines = 0 := hl.2.1
  cases ab with
  | false =>
    have hsum : t.imported_lines + t.filtered_lines + t.duplicate_lines =
        0 + 0 + 0 + lines.length := hl.2.2.1 rfl
    have hic : import_chat_history cfg now st user_id user_name session_id
        lines = (st', t) := by
      simp only [import_chat_history, hloop]
    rw [hic]
    constructor
    · show t.imported_lines + t.filtered_lines + t.duplicate_lines +
        t.error_lines = t.total_lines
      omega
    · exact htot
  | true =>
    have hsum : t.imported_lines + t.filtered_lines + t.duplicate_lines ≤
        0 + 0 + 0 + lines.length := hl.2.2.2 rfl
    have hic : import_chat_history cfg now st user_id user_name session_id
        lines = (st', { t with error_lines := t.error_lines +
          (t.total_lines - t.imported_lines - t.filtered_lines -
            t.duplicate_lines) }) := by
      simp only [import_chat_history, hloop]
    rw [hic]
    constructor
    · show t.imported_lines + t.filtered_lines + t.duplicate_lines +
        (t.error_lines + (t.total_lines - t.imported_lines -
          t.filtered_lines - t.duplicate_lines)) = t.total_lines
      omega
    · exact htot

/-- C3 witness: the amended theorem evaluated on a concrete one-line
transcript with no blank lines. -/
theorem c3_witness :
    (import_chat_history defaultFilterConfig 1000000 initState "u" "n" "imp"
        ["hello"]).2.imported_lines +
      (import_chat_history defaultFilterConfig 1000000 initState "u" "n" "imp"
        ["hello"]).2.filtered_lines +
      (import_chat_history defaultFilterConfig 1000000 initState "u" "n" "imp"
        ["hello"]).2.duplicate_lines +
      (import_chat_history defaultFilterConfig 1000000 initState "u" "n" "imp"
        ["hello"]).2.error_lines =
      (import_chat_history defaultFilterConfig 1000000 initState "u" "n" "imp"
        ["hello"]).2.total_lines ∧
    (import_chat_history defaultFilterConfig 1000000 initState "u" "n" "imp"
        ["hello"]).2.total_lines = 1 :=
  c3_amended_tally_partition defaultFilterConfig 1000000 initState "u" "n"
    "imp" ["hello"] (by decide)

/-- The default filter configuration with the maximum duplicate count set
to 0. -/
def zeroDupConfig : MessageFilterConfig :=
  { defaultFilterConfig with maxDuplicateCount := 0 }

/-- C4 counterexample: with a configured maximum duplicate count of 0,
sending a gate-passing message once (n = 1 > 0) still stores one row — the
fresh-insert path lets the first occurrence through without consulting the
maximum — so the stored-row count is 1, not `max_duplicate_count = 0`. -/
theorem c4_counterexample :
    zeroDupConfig.maxDuplicateCount < 1 ∧
    ((sendSame zeroDupConfig 20 0 helloDict 1 initState).messages.countP
        (fun row => pyLookup row "content" == some (PyVal.vStr "hello"))) = 1 ∧
    ¬ ((sendSame zeroDupConfig 20 0 helloDict 1 initState).messages.countP
        (fun row => pyLookup row "content" == some (PyVal.vStr "hello"))) =
      zeroDupConfig.maxDuplicateCount := by
  exact ⟨by decide, by decide, by decide⟩
